/-
Verification of the retrobrite NES emulator (Rust) against its
natural-language specification.

This file contains a shallow embedding, in Lean 4, of the parts of the
emulator that the claims under scrutiny talk about:

  * src/utils.rs            -- bit manipulation helpers
  * src/cpu.rs              -- the 6502 CPU core (registers, addressing
                               modes, the 256-entry opcode table, the
                               instruction executors, cycle accounting)
  * src/ppu.rs              -- the PPU register file and its CPU-visible
                               port handlers, OAM DMA
  * src/mem.rs              -- Memory / PpuMemory (palette aliasing,
                               nametable routing, wrapping_load)
  * src/mappers/*.rs        -- NROM (mapper 0), MMC1 (mapper 1),
                               UNROM (mapper 2)
  * src/state.rs            -- NesState: the CPU-bus dispatcher
                               (PPU warm-up gate, OAM DMA port,
                               controller strobe and reads)

Machine integers are embedded as Nat (with explicit reductions mod 2^8 /
2^16 where the Rust performs wrapping arithmetic) and as Int where the
Rust works on i8.  Byte arrays are embedded as total functions Nat → Nat
updated pointwise.  Fallible operations (u8 subtraction that would panic
in a debug build) are embedded with Option.
-/
import Mathlib

namespace Retrobrite

/-! ## Pointwise store update

Memory (`Vec<u8>` in the source) is embedded as a total function
`Nat → Nat`; a store to one cell is a pointwise update. -/

def upd (m : Nat → Nat) (a v : Nat) : Nat → Nat :=
  fun x => if x = a then v else m x

/-! ## src/utils.rs -/

/-- `utils::bit_is_set`: `(input & (1 << bit)) != 0`. -/
def bit_is_set (bit input : Nat) : Bool :=
  (input &&& (1 <<< bit)) != 0

/-- `utils::set_bit`: `*input |= 1 << bit` (u8 value stays below 256 when
`bit < 8`). -/
def set_bit (bit input : Nat) : Nat :=
  input ||| (1 <<< bit)

/-- `utils::clear_bit`: `*input &= !(1 << bit)`; the u8 complement of
`1 << bit` is `255 ^^^ (1 <<< bit)`. -/
def clear_bit (bit input : Nat) : Nat :=
  input &&& (255 ^^^ (1 <<< bit))

/-- `utils::set_bit_from`: copy bit `bit` of `from_v` into `output`. -/
def set_bit_from (bit from_v output : Nat) : Nat :=
  if bit_is_set bit from_v then set_bit bit output else clear_bit bit output

/-- `utils::set_bits_from_mask_u16`:
`*dest = (*dest & !mask) | (source & mask)`; the u16 complement of `mask`
is `65535 ^^^ mask`. -/
def set_bits_from_mask_u16 (source mask dest : Nat) : Nat :=
  (dest &&& (65535 ^^^ mask)) ||| (source &&& mask)

/-- `utils::same_page`: both addresses lie in the same 256-byte page. -/
def same_page (addr1 addr2 : Nat) : Bool :=
  addr1 / 256 == addr2 / 256

/-! ## Rust i8 semantics (used by `Cpu::adc` / `Cpu::sbc`)

`to_i8` is the value of a u8 reinterpreted `as i8`; `wrap_i8` is the
wrap-around performed by `i8::overflowing_add` / `overflowing_sub`. -/

def to_i8 (n : Nat) : Int :=
  if n % 256 < 128 then ((n % 256 : Nat) : Int) else ((n % 256 : Nat) : Int) - 256

def wrap_i8 (z : Int) : Int :=
  (z + 128).emod 256 - 128

/-- Overflow flag of `i8::overflowing_add` / `overflowing_sub` applied to
the exact integer result `z`. -/
def i8_overflow (z : Int) : Bool :=
  decide (z < -128 ∨ 127 < z)

/-! ## src/cpu.rs : data model -/

/-- `cpu::AddrMode` (6502 addressing modes). -/
inductive AddrMode
  | IMM | ABS | ZP | IMP | IND | ABX | ABY | ZPX | ZPY | IZX | IZY | REL | ACC | UNK
deriving DecidableEq, Repr

/-- The instruction executor referenced by an opcode-table entry
(`func: Cpu::xxx` in the source). -/
inductive OpName
  | adc | opAnd | asl | bcc | bcs | beq | bit | bmi | bne | bpl | brk | bvc | bvs
  | clc | cld | cli | clv | cmp | cpx | cpy | dcp | dec | dex | dey | eor
  | inc | inx | iny | isb | jmp | jsr | lax | lda | ldx | ldy | lsr | nop | oops
  | ora | pha | php | pla | plp | rla | rol | ror | rra | rti | rts | sax | sbc
  | sec | sed | sei | slo | sre | sta | stx | sty | tax | tay | tsx | txa | txs | tya
deriving DecidableEq, Repr

/-- `cpu::Instruction`: one entry of the 256-entry opcode table. -/
structure Instruction where
  opcode : Nat
  func : OpName
  addr_mode : AddrMode
  name : String
  cycles : Nat
  legal : Bool
deriving Repr

/-- `cpu::Registers` (6502 register file). -/
structure Registers where
  A : Nat
  X : Nat
  Y : Nat
  PC : Nat
  SP : Nat
  P : Nat
deriving Repr

/--
`cpu::Cpu`, together with the CPU-visible bus.

The Rust `Cpu` borrows a `MemController` for every memory access; this
embedding folds the bus into the state as a flat function `mem`, with
reads pure and writes pointwise updates.  This abstracts away the
memory-mapped register side effects of the bus, which never feed back
into the CPU-internal quantities (registers, flags, cycle accounting)
the CPU-level claims are about -- with one exception that IS kept: a
write to $4014 charges 513 extra cycles (`Cpu::do_mem_write`).
The logging-only field `bytes_consumed` is dropped.
-/
structure Cpu where
  reg : Registers
  opcode : Nat
  operand_address : Nat
  operand_value : Nat
  page_penalty : Nat
  extra_cycles : Nat
  mem : Nat → Nat

/-- Processor status bit positions, `cpu/constants.rs`. -/
def PS_C_BIT : Nat := 0

def PS_Z_BIT : Nat := 1

def PS_I_BIT : Nat := 2

def PS_D_BIT : Nat := 3

def PS_B_BIT : Nat := 4

def PS_V_BIT : Nat := 6

def PS_N_BIT : Nat := 7

namespace Cpu

/-- `Cpu::do_mem_read` (the cycle estimate passed to the bus does not
affect the returned byte in this embedding). -/
def do_mem_read (s : Cpu) (addr : Nat) : Nat :=
  s.mem addr

/-- `Cpu::do_mem_read_word`: little-endian word read (the bus reads
`addr` then `addr + 1`). -/
def do_mem_read_word (s : Cpu) (addr : Nat) : Nat :=
  s.mem addr + 256 * s.mem ((addr + 1) % 65536)

/-- `Cpu::do_mem_write`: store the byte, and charge 513 extra cycles for
a write to the OAM DMA port $4014. -/
def do_mem_write (s : Cpu) (addr value : Nat) : Cpu :=
  let s := { s with mem := upd s.mem addr value }
  if addr = 0x4014 then { s with extra_cycles := s.extra_cycles + 513 } else s

/-- `Cpu::read_byte`: fetch from PC and advance PC (u16 wrap). -/
def read_byte (s : Cpu) : Nat × Cpu :=
  (s.mem s.reg.PC, { s with reg := { s.reg with PC := (s.reg.PC + 1) % 65536 } })

/-- `Cpu::read_word`: two `read_byte` calls, little endian. -/
def read_word (s : Cpu) : Nat × Cpu :=
  let (lsb, s) := read_byte s
  let (msb, s) := read_byte s
  ((msb <<< 8) ||| lsb, s)

/-! ### Addressing modes (`Cpu::addr_mode_*`, `Cpu::set_operand_address`) -/

/-- `Cpu::addr_mode_acc`. -/
def addr_mode_acc (s : Cpu) : Cpu :=
  { s with operand_value := s.reg.A }

/-- `Cpu::addr_mode_imm`. -/
def addr_mode_imm (s : Cpu) : Cpu :=
  let (v, s) := read_byte s
  { s with operand_value := v }

/-- `Cpu::addr_mode_abs`. -/
def addr_mode_abs (s : Cpu) : Cpu :=
  let (w, s) := read_word s
  { s with operand_address := w }

/-- `Cpu::addr_mode_abx`: absolute,X with page-penalty detection. -/
def addr_mode_abx (s : Cpu) : Cpu :=
  let (base_addres, s) := read_word s
  let operand_address := (base_addres + s.reg.X) % 65536
  let add_cycles := if same_page base_addres operand_address then 0 else 1
  { s with operand_address, page_penalty := add_cycles }

/-- `Cpu::addr_mode_aby`: absolute,Y with page-penalty detection. -/
def addr_mode_aby (s : Cpu) : Cpu :=
  let (base_addres, s) := read_word s
  let operand_address := (base_addres + s.reg.Y) % 65536
  let add_cycles := if same_page base_addres operand_address then 0 else 1
  { s with operand_address, page_penalty := add_cycles }

/-- `Cpu::addr_mode_ind`, reproducing the 6502 page-wrap defect of JMP
(indirect). -/
def addr_mode_ind (s : Cpu) : Cpu :=
  let (lsb_addr, s) := read_word s
  let msb_addr := if lsb_addr &&& 0x00FF = 0x00FF then lsb_addr &&& 0xFF00 else lsb_addr + 1
  let target_lsb := do_mem_read s lsb_addr
  let target_msb := do_mem_read s msb_addr
  { s with operand_address := (target_msb <<< 8) ||| target_lsb }

/-- `Cpu::addr_mode_izx`: (indirect,X) with zero-page wrap. -/
def addr_mode_izx (s : Cpu) : Cpu :=
  let (b, s) := read_byte s
  let zp_addr := (b + s.reg.X) % 256
  if zp_addr = 0xFF then
    let lsb := do_mem_read s zp_addr
    let msb := do_mem_read s 0x00
    { s with operand_address := (msb <<< 8) ||| lsb }
  else
    { s with operand_address := do_mem_read_word s zp_addr }

/-- `Cpu::addr_mode_izy`: (indirect),Y with page-penalty detection. -/
def addr_mode_izy (s : Cpu) : Cpu :=
  let (zp_addr, s) := read_byte s
  let base_addr :=
    if zp_addr = 0xFF then
      let lsb := do_mem_read s zp_addr
      let msb := do_mem_read s 0x00
      (msb <<< 8) ||| lsb
    else
      do_mem_read_word s zp_addr
  let operand_address := (base_addr + s.reg.Y) % 65536
  let add_cycles := if same_page base_addr operand_address then 0 else 1
  { s with operand_address, page_penalty := add_cycles }

/-- `Cpu::addr_mode_zp`. -/
def addr_mode_zp (s : Cpu) : Cpu :=
  let (b, s) := read_byte s
  { s with operand_address := b }

/-- `Cpu::addr_mode_zpx`. -/
def addr_mode_zpx (s : Cpu) : Cpu :=
  let (b, s) := read_byte s
  { s with operand_address := (b + s.reg.X) % 256 }

/-- `Cpu::addr_mode_zpy`. -/
def addr_mode_zpy (s : Cpu) : Cpu :=
  let (b, s) := read_byte s
  { s with operand_address := (b + s.reg.Y) % 256 }

/-- `Cpu::addr_mode_rel`. -/
def addr_mode_rel (s : Cpu) : Cpu :=
  let (v, s) := read_byte s
  { s with operand_value := v }

/-- `Cpu::set_operand_address`. -/
def set_operand_address (addr_mode : AddrMode) (s : Cpu) : Cpu :=
  match addr_mode with
  | .IMM => addr_mode_imm s
  | .ABS => addr_mode_abs s
  | .ZP => addr_mode_zp s
  | .IND => addr_mode_ind s
  | .ABX => addr_mode_abx s
  | .ABY => addr_mode_aby s
  | .ZPX => addr_mode_zpx s
  | .ZPY => addr_mode_zpy s
  | .IZX => addr_mode_izx s
  | .IZY => addr_mode_izy s
  | .REL => addr_mode_rel s
  | .ACC => addr_mode_acc s
  | .IMP => s
  | .UNK => s

/-- `Cpu::OP_CODES`: the 256-entry opcode jump table, transcribed
entry by entry from the source, in sixteen rows of sixteen. -/
def op_codes_0 : List Instruction := [
  ⟨0x00, .brk, .IMP, "BRK", 7, true⟩,
  ⟨0x01, .ora, .IZX, "ORA", 6, true⟩,
  ⟨0x02, .oops, .UNK, "ILL", 0, false⟩,
  ⟨0x03, .slo, .IZX, "SLO", 8, false⟩,
  ⟨0x04, .nop, .ZP, "NOP", 3, false⟩,
  ⟨0x05, .ora, .ZP, "ORA", 3, true⟩,
  ⟨0x06, .asl, .ZP, "ASL", 5, true⟩,
  ⟨0x07, .slo, .ZP, "SLO", 5, false⟩,
  ⟨0x08, .php, .IMP, "PHP", 3, true⟩,
  ⟨0x09, .ora, .IMM, "ORA", 2, true⟩,
  ⟨0x0A, .asl, .ACC, "ASL", 2, true⟩,
  ⟨0x0B, .oops, .IMM, "ANC", 2, false⟩,
  ⟨0x0C, .nop, .ABS, "NOP", 4, false⟩,
  ⟨0x0D, .ora, .ABS, "ORA", 4, true⟩,
  ⟨0x0E, .asl, .ABS, "ASL", 6, true⟩,
  ⟨0x0F, .slo, .ABS, "SLO", 6, false⟩]

def op_codes_1 : List Instruction := [
  ⟨0x10, .bpl, .REL, "BPL", 2, true⟩,
  ⟨0x11, .ora, .IZY, "ORA", 5, true⟩,
  ⟨0x12, .oops, .UNK, "ILL", 0, false⟩,
  ⟨0x13, .slo, .IZY, "SLO", 8, false⟩,
  ⟨0x14, .nop, .ZPX, "NOP", 4, false⟩,
  ⟨0x15, .ora, .ZPX, "ORA", 4, true⟩,
  ⟨0x16, .asl, .ZPX, "ASL", 6, true⟩,
  ⟨0x17, .slo, .ZPX, "SLO", 6, false⟩,
  ⟨0x18, .clc, .IMP, "CLC", 2, true⟩,
  ⟨0x19, .ora, .ABY, "ORA", 4, true⟩,
  ⟨0x1A, .nop, .IMP, "NOP", 2, false⟩,
  ⟨0x1B, .slo, .ABY, "SLO", 7, false⟩,
  ⟨0x1C, .nop, .ABX, "NOP", 4, false⟩,
  ⟨0x1D, .ora, .ABX, "ORA", 4, true⟩,
  ⟨0x1E, .asl, .ABX, "ASL", 7, true⟩,
  ⟨0x1F, .slo, .ABX, "SLO", 7, false⟩]

def op_codes_2 : List Instruction := [
  ⟨0x20, .jsr, .ABS, "JSR", 6, true⟩,
  ⟨0x21, .opAnd, .IZX, "AND", 6, true⟩,
  ⟨0x22, .oops, .UNK, "ILL", 0, false⟩,
  ⟨0x23, .rla, .IZX, "RLA", 8, false⟩,
  ⟨0x24, .bit, .ZP, "BIT", 3, true⟩,
  ⟨0x25, .opAnd, .ZP, "AND", 3, true⟩,
  ⟨0x26, .rol, .ZP, "ROL", 5, true⟩,
  ⟨0x27, .rla, .ZP, "RLA", 5, false⟩,
  ⟨0x28, .plp, .IMP, "PLP", 4, true⟩,
  ⟨0x29, .opAnd, .IMM, "AND", 2, true⟩,
  ⟨0x2A, .rol, .ACC, "ROL", 2, true⟩,
  ⟨0x2B, .oops, .IMM, "ANC", 2, false⟩,
  ⟨0x2C, .bit, .ABS, "BIT", 4, true⟩,
  ⟨0x2D, .opAnd, .ABS, "AND", 4, true⟩,
  ⟨0x2E, .rol, .ABS, "ROL", 6, true⟩,
  ⟨0x2F, .rla, .ABS, "RLA", 6, false⟩]

def op_codes_3 : List Instruction := [
  ⟨0x30, .bmi, .REL, "BMI", 2, true⟩,
  ⟨0x31, .opAnd, .IZY, "AND", 5, true⟩,
  ⟨0x32, .oops, .UNK, "ILL", 0, false⟩,
  ⟨0x33, .rla, .IZY, "RLA", 8, false⟩,
  ⟨0x34, .nop, .ZPX, "NOP", 4, false⟩,
  ⟨0x35, .opAnd, .ZPX, "AND", 4, true⟩,
  ⟨0x36, .rol, .ZPX, "ROL", 6, true⟩,
  ⟨0x37, .rla, .ZPX, "RLA", 6, false⟩,
  ⟨0x38, .sec, .IMP, "SEC", 2, true⟩,
  ⟨0x39, .opAnd, .ABY, "AND", 4, true⟩,
  ⟨0x3A, .nop, .IMP, "NOP", 2, false⟩,
  ⟨0x3B, .rla, .ABY, "RLA", 7, false⟩,
  ⟨0x3C, .nop, .ABX, "NOP", 4, false⟩,
  ⟨0x3D, .opAnd, .ABX, "AND", 4, true⟩,
  ⟨0x3E, .rol, .ABX, "ROL", 7, true⟩,
  ⟨0x3F, .rla, .ABX, "RLA", 7, false⟩]

def op_codes_4 : List Instruction := [
  ⟨0x40, .rti, .IMP, "RTI", 6, true⟩,
  ⟨0x41, .eor, .IZX, "EOR", 6, true⟩,
  ⟨0x42, .oops, .UNK, "ILL", 0, false⟩,
  ⟨0x43, .sre, .IZX, "SRE", 8, false⟩,
  ⟨0x44, .nop, .ZP, "NOP", 3, false⟩,
  ⟨0x45, .eor, .ZP, "EOR", 3, true⟩,
  ⟨0x46, .lsr, .ZP, "LSR", 5, true⟩,
  ⟨0x47, .sre, .ZP, "SRE", 5, false⟩,
  ⟨0x48, .pha, .IMP, "PHA", 3, true⟩,
  ⟨0x49, .eor, .IMM, "EOR", 2, true⟩,
  ⟨0x4A, .lsr, .ACC, "LSR", 2, true⟩,
  ⟨0x4B, .oops, .IMM, "ALR", 2, false⟩,
  ⟨0x4C, .jmp, .ABS, "JMP", 3, true⟩,
  ⟨0x4D, .eor, .ABS, "EOR", 4, true⟩,
  ⟨0x4E, .lsr, .ABS, "LSR", 6, true⟩,
  ⟨0x4F, .sre, .ABS, "SRE", 6, false⟩]

def op_codes_5 : List Instruction := [
  ⟨0x50, .bvc, .REL, "BVC", 2, true⟩,
  ⟨0x51, .eor, .IZY, "EOR", 5, true⟩,
  ⟨0x52, .oops, .UNK, "ILL", 0, false⟩,
  ⟨0x53, .sre, .IZY, "SRE", 8, false⟩,
  ⟨0x54, .nop, .ZPX, "NOP", 4, false⟩,
  ⟨0x55, .eor, .ZPX, "EOR", 4, true⟩,
  ⟨0x56, .lsr, .ZPX, "LSR", 6, true⟩,
  ⟨0x57, .sre, .ZPX, "SRE", 6, false⟩,
  ⟨0x58, .cli, .IMP, "CLI", 2, true⟩,
  ⟨0x59, .eor, .ABY, "EOR", 4, true⟩,
  ⟨0x5A, .nop, .IMP, "NOP", 2, false⟩,
  ⟨0x5B, .sre, .ABY, "SRE", 7, false⟩,
  ⟨0x5C, .nop, .ABX, "NOP", 4, false⟩,
  ⟨0x5D, .eor, .ABX, "EOR", 4, true⟩,
  ⟨0x5E, .lsr, .ABX, "LSR", 7, true⟩,
  ⟨0x5F, .sre, .ABX, "SRE", 7, false⟩]

def op_codes_6 : List Instruction := [
  ⟨0x60, .rts, .IMP, "RTS", 6, true⟩,
  ⟨0x61, .adc, .IZX, "ADC", 6, true⟩,
  ⟨0x62, .oops, .UNK, "ILL", 0, false⟩,
  ⟨0x63, .rra, .IZX, "RRA", 8, false⟩,
  ⟨0x64, .nop, .ZP, "NOP", 3, false⟩,
  ⟨0x65, .adc, .ZP, "ADC", 3, true⟩,
  ⟨0x66, .ror, .ZP, "ROR", 5, true⟩,
  ⟨0x67, .rra, .ZP, "RRA", 5, false⟩,
  ⟨0x68, .pla, .IMP, "PLA", 4, true⟩,
  ⟨0x69, .adc, .IMM, "ADC", 2, true⟩,
  ⟨0x6A, .ror, .ACC, "ROR", 2, true⟩,
  ⟨0x6B, .oops, .IMM, "ARR", 2, false⟩,
  ⟨0x6C, .jmp, .IND, "JMP", 5, true⟩,
  ⟨0x6D, .adc, .ABS, "ADC", 4, true⟩,
  ⟨0x6E, .ror, .ABS, "ROR", 6, true⟩,
  ⟨0x6F, .rra, .ABS, "RRA", 6, false⟩]

def op_codes_7 : List Instruction := [
  ⟨0x70, .bvs, .REL, "BVS", 2, true⟩,
  ⟨0x71, .adc, .IZY, "ADC", 5, true⟩,
  ⟨0x72, .oops, .UNK, "ILL", 0, false⟩,
  ⟨0x73, .rra, .IZY, "RRA", 8, false⟩,
  ⟨0x74, .nop, .ZPX, "NOP", 4, false⟩,
  ⟨0x75, .adc, .ZPX, "ADC", 4, true⟩,
  ⟨0x76, .ror, .ZPX, "ROR", 6, true⟩,
  ⟨0x77, .rra, .ZPX, "RRA", 6, false⟩,
  ⟨0x78, .sei, .IMP, "SEI", 2, true⟩,
  ⟨0x79, .adc, .ABY, "ADC", 4, true⟩,
  ⟨0x7A, .nop, .IMP, "NOP", 2, false⟩,
  ⟨0x7B, .rra, .ABY, "RRA", 7, false⟩,
  ⟨0x7C, .nop, .ABX, "NOP", 4, false⟩,
  ⟨0x7D, .adc, .ABX, "ADC", 4, true⟩,
  ⟨0x7E, .ror, .ABX, "ROR", 7, true⟩,
  ⟨0x7F, .rra, .ABX, "RRA", 7, false⟩]

def op_codes_8 : List Instruction := [
  ⟨0x80, .nop, .IMM, "NOP", 2, false⟩,
  ⟨0x81, .sta, .IZX, "STA", 6, true⟩,
  ⟨0x82, .nop, .IMM, "NOP", 2, false⟩,
  ⟨0x83, .sax, .IZX, "SAX", 6, false⟩,
  ⟨0x84, .sty, .ZP, "STY", 3, true⟩,
  ⟨0x85, .sta, .ZP, "STA", 3, true⟩,
  ⟨0x86, .stx, .ZP, "STX", 3, true⟩,
  ⟨0x87, .sax, .ZP, "SAX", 3, false⟩,
  ⟨0x88, .dey, .IMP, "DEY", 2, true⟩,
  ⟨0x89, .nop, .IMM, "NOP", 2, false⟩,
  ⟨0x8A, .txa, .IMP, "TXA", 2, true⟩,
  ⟨0x8B, .oops, .IMM, "XAA", 2, false⟩,
  ⟨0x8C, .sty, .ABS, "STY", 4, true⟩,
  ⟨0x8D, .sta, .ABS, "STA", 4, true⟩,
  ⟨0x8E, .stx, .ABS, "STX", 4, true⟩,
  ⟨0x8F, .sax, .ABS, "SAX", 4, false⟩]

def op_codes_9 : List Instruction := [
  ⟨0x90, .bcc, .REL, "BCC", 2, true⟩,
  ⟨0x91, .sta, .IZY, "STA", 6, true⟩,
  ⟨0x92, .oops, .UNK, "ILL", 0, false⟩,
  ⟨0x93, .oops, .IZY, "AHX", 6, false⟩,
  ⟨0x94, .sty, .ZPX, "STY", 4, true⟩,
  ⟨0x95, .sta, .ZPX, "STA", 4, true⟩,
  ⟨0x96, .stx, .ZPY, "STX", 4, true⟩,
  ⟨0x97, .sax, .ZPY, "SAX", 4, false⟩,
  ⟨0x98, .tya, .IMP, "TYA", 2, true⟩,
  ⟨0x99, .sta, .ABY, "STA", 5, true⟩,
  ⟨0x9A, .txs, .IMP, "TXS", 2, true⟩,
  ⟨0x9B, .oops, .ABY, "TAS", 5, false⟩,
  ⟨0x9C, .oops, .ABX, "SHY", 5, false⟩,
  ⟨0x9D, .sta, .ABX, "STA", 5, true⟩,
  ⟨0x9E, .oops, .ABY, "SHX", 5, false⟩,
  ⟨0x9F, .oops, .ABY, "AHX", 5, false⟩]

def op_codes_a : List Instruction := [
  ⟨0xA0, .ldy, .IMM, "LDY", 2, true⟩,
  ⟨0xA1, .lda, .IZX, "LDA", 6, true⟩,
  ⟨0xA2, .ldx, .IMM, "LDX", 2, true⟩,
  ⟨0xA3, .lax, .IZX, "LAX", 6, false⟩,
  ⟨0xA4, .ldy, .ZP, "LDY", 3, true⟩,
  ⟨0xA5, .lda, .ZP, "LDA", 3, true⟩,
  ⟨0xA6, .ldx, .ZP, "LDX", 3, true⟩,
  ⟨0xA7, .lax, .ZP, "LAX", 3, false⟩,
  ⟨0xA8, .tay, .IMP, "TAY", 2, true⟩,
  ⟨0xA9, .lda, .IMM, "LDA", 2, true⟩,
  ⟨0xAA, .tax, .IMP, "TAX", 2, true⟩,
  ⟨0xAB, .oops, .IMM, "LAX", 2, false⟩,
  ⟨0xAC, .ldy, .ABS, "LDY", 4, true⟩,
  ⟨0xAD, .lda, .ABS, "LDA", 4, true⟩,
  ⟨0xAE, .ldx, .ABS, "LDX", 4, true⟩,
  ⟨0xAF, .lax, .ABS, "LAX", 4, false⟩]

def op_codes_b : List Instruction := [
  ⟨0xB0, .bcs, .REL, "BCS", 2, true⟩,
  ⟨0xB1, .lda, .IZY, "LDA", 5, true⟩,
  ⟨0xB2, .oops, .UNK, "ILL", 0, false⟩,
  ⟨0xB3, .lax, .IZY, "LAX", 5, false⟩,
  ⟨0xB4, .ldy, .ZPX, "LDY", 4, true⟩,
  ⟨0xB5, .lda, .ZPX, "LDA", 4, true⟩,
  ⟨0xB6, .ldx, .ZPY, "LDX", 4, true⟩,
  ⟨0xB7, .lax, .ZPY, "LAX", 4, false⟩,
  ⟨0xB8, .clv, .IMP, "CLV", 2, true⟩,
  ⟨0xB9, .lda, .ABY, "LDA", 4, true⟩,
  ⟨0xBA, .tsx, .IMP, "TSX", 2, true⟩,
  ⟨0xBB, .oops, .ABY, "LAS", 4, false⟩,
  ⟨0xBC, .ldy, .ABX, "LDY", 4, true⟩,
  ⟨0xBD, .lda, .ABX, "LDA", 4, true⟩,
  ⟨0xBE, .ldx, .ABY, "LDX", 4, true⟩,
  ⟨0xBF, .lax, .ABY, "LAX", 4, false⟩]

def op_codes_c : List Instruction := [
  ⟨0xC0, .cpy, .IMM, "CPY", 2, true⟩,
  ⟨0xC1, .cmp, .IZX, "CMP", 6, true⟩,
  ⟨0xC2, .nop, .IMM, "NOP", 2, false⟩,
  ⟨0xC3, .dcp, .IZX, "DCP", 8, false⟩,
  ⟨0xC4, .cpy, .ZP, "CPY", 3, true⟩,
  ⟨0xC5, .cmp, .ZP, "CMP", 3, true⟩,
  ⟨0xC6, .dec, .ZP, "DEC", 5, true⟩,
  ⟨0xC7, .dcp, .ZP, "DCP", 5, false⟩,
  ⟨0xC8, .iny, .IMP, "INY", 2, true⟩,
  ⟨0xC9, .cmp, .IMM, "CMP", 2, true⟩,
  ⟨0xCA, .dex, .IMP, "DEX", 2, true⟩,
  ⟨0xCB, .oops, .IMM, "AXS", 2, false⟩,
  ⟨0xCC, .cpy, .ABS, "CPY", 4, true⟩,
  ⟨0xCD, .cmp, .ABS, "CMP", 4, true⟩,
  ⟨0xCE, .dec, .ABS, "DEC", 6, true⟩,
  ⟨0xCF, .dcp, .ABS, "DCP", 6, false⟩]

def op_codes_d : List Instruction := [
  ⟨0xD0, .bne, .REL, "BNE", 2, true⟩,
  ⟨0xD1, .cmp, .IZY, "CMP", 5, true⟩,
  ⟨0xD2, .oops, .UNK, "ILL", 0, false⟩,
  ⟨0xD3, .dcp, .IZY, "DCP", 8, false⟩,
  ⟨0xD4, .nop, .ZPX, "NOP", 4, false⟩,
  ⟨0xD5, .cmp, .ZPX, "CMP", 4, true⟩,
  ⟨0xD6, .dec, .ZPX, "DEC", 6, true⟩,
  ⟨0xD7, .dcp, .ZPX, "DCP", 6, false⟩,
  ⟨0xD8, .cld, .IMP, "CLD", 2, true⟩,
  ⟨0xD9, .cmp, .ABY, "CMP", 4, true⟩,
  ⟨0xDA, .nop, .IMP, "NOP", 2, false⟩,
  ⟨0xDB, .dcp, .ABY, "DCP", 7, false⟩,
  ⟨0xDC, .nop, .ABX, "NOP", 4, false⟩,
  ⟨0xDD, .cmp, .ABX, "CMP", 4, true⟩,
  ⟨0xDE, .dec, .ABX, "DEC", 7, true⟩,
  ⟨0xDF, .dcp, .ABX, "DCP", 7, false⟩]

def op_codes_e : List Instruction := [
  ⟨0xE0, .cpx, .IMM, "CPX", 2, true⟩,
  ⟨0xE1, .sbc, .IZX, "SBC", 6, true⟩,
  ⟨0xE2, .nop, .IMM, "NOP", 2, false⟩,
  ⟨0xE3, .isb, .IZX, "ISB", 8, false⟩,
  ⟨0xE4, .cpx, .ZP, "CPX", 3, true⟩,
  ⟨0xE5, .sbc, .ZP, "SBC", 3, true⟩,
  ⟨0xE6, .inc, .ZP, "INC", 5, true⟩,
  ⟨0xE7, .isb, .ZP, "ISB", 5, false⟩,
  ⟨0xE8, .inx, .IMP, "INX", 2, true⟩,
  ⟨0xE9, .sbc, .IMM, "SBC", 2, true⟩,
  ⟨0xEA, .nop, .IMP, "NOP", 2, true⟩,
  ⟨0xEB, .sbc, .IMM, "SBC", 2, false⟩,
  ⟨0xEC, .cpx, .ABS, "CPX", 4, true⟩,
  ⟨0xED, .sbc, .ABS, "SBC", 4, true⟩,
  ⟨0xEE, .inc, .ABS, "INC", 6, true⟩,
  ⟨0xEF, .isb, .ABS, "ISB", 6, false⟩]

def op_codes_f : List Instruction := [
  ⟨0xF0, .beq, .REL, "BEQ", 2, true⟩,
  ⟨0xF1, .sbc, .IZY, "SBC", 5, true⟩,
  ⟨0xF2, .oops, .UNK, "ILL", 0, false⟩,
  ⟨0xF3, .isb, .IZY, "ISB", 8, false⟩,
  ⟨0xF4, .nop, .ZPX, "NOP", 4, false⟩,
  ⟨0xF5, .sbc, .ZPX, "SBC", 4, true⟩,
  ⟨0xF6, .inc, .ZPX, "INC", 6, true⟩,
  ⟨0xF7, .isb, .ZPX, "ISB", 6, false⟩,
  ⟨0xF8, .sed, .IMP, "SED", 2, true⟩,
  ⟨0xF9, .sbc, .ABY, "SBC", 4, true⟩,
  ⟨0xFA, .nop, .IMP, "NOP", 2, false⟩,
  ⟨0xFB, .isb, .ABY, "ISB", 7, false⟩,
  ⟨0xFC, .nop, .ABX, "NOP", 4, false⟩,
  ⟨0xFD, .sbc, .ABX, "SBC", 4, true⟩,
  ⟨0xFE, .inc, .ABX, "INC", 7, true⟩,
  ⟨0xFF, .isb, .ABX, "ISB", 7, false⟩]

def op_codes : List Instruction :=
  op_codes_0 ++ op_codes_1 ++ op_codes_2 ++ op_codes_3 ++ op_codes_4 ++ op_codes_5 ++ op_codes_6 ++ op_codes_7 ++ op_codes_8 ++ op_codes_9 ++ op_codes_a ++ op_codes_b ++ op_codes_c ++ op_codes_d ++ op_codes_e ++ op_codes_f

/-- `Cpu::OP_CODES[idx]` (the Rust index is always in range; out-of-range
defaults to an ILL entry). -/
def op_lookup (n : Nat) : Instruction :=
  op_codes.getD n ⟨0, .oops, .UNK, "ILL", 0, false⟩

/-! ### Operand fetching and flag helpers -/

/-- `Cpu::fetch_operand`: load the operand byte for address-based modes. -/
def fetch_operand (s : Cpu) : Cpu :=
  match (op_lookup s.opcode).addr_mode with
  | .IMM => s
  | .ABS => { s with operand_value := do_mem_read s s.operand_address }
  | .ZP => { s with operand_value := do_mem_read s s.operand_address }
  | .IMP => s
  | .IND => s
  | .ABX => { s with operand_value := do_mem_read s s.operand_address }
  | .ABY => { s with operand_value := do_mem_read s s.operand_address }
  | .ZPX => { s with operand_value := do_mem_read s s.operand_address }
  | .ZPY => { s with operand_value := do_mem_read s s.operand_address }
  | .IZX => { s with operand_value := do_mem_read s s.operand_address }
  | .IZY => { s with operand_value := do_mem_read s s.operand_address }
  | .REL => s
  | .ACC => s
  | .UNK => s

/-- `Cpu::update_processor_status_n_flag`. -/
def update_n_flag (input : Nat) (s : Cpu) : Cpu :=
  { s with reg := { s.reg with P := set_bit_from PS_N_BIT input s.reg.P } }

/-- `Cpu::update_processor_status_z_flag`. -/
def update_z_flag (input : Nat) (s : Cpu) : Cpu :=
  match input with
  | 0 => { s with reg := { s.reg with P := set_bit PS_Z_BIT s.reg.P } }
  | _ => { s with reg := { s.reg with P := clear_bit PS_Z_BIT s.reg.P } }

/-- `Cpu::update_processor_status_nz_flags`. -/
def update_nz_flags (input : Nat) (s : Cpu) : Cpu :=
  update_z_flag input (update_n_flag input s)

/-- `Cpu::set_processor_status_c_flag`. -/
def set_c_flag (s : Cpu) : Cpu :=
  { s with reg := { s.reg with P := set_bit PS_C_BIT s.reg.P } }

/-- `Cpu::clear_processor_status_c_flag`. -/
def clear_c_flag (s : Cpu) : Cpu :=
  { s with reg := { s.reg with P := clear_bit PS_C_BIT s.reg.P } }

/-- `Cpu::set_processor_status_v_flag`. -/
def set_v_flag (s : Cpu) : Cpu :=
  { s with reg := { s.reg with P := set_bit PS_V_BIT s.reg.P } }

/-- `Cpu::clear_processor_status_v_flag`. -/
def clear_v_flag (s : Cpu) : Cpu :=
  { s with reg := { s.reg with P := clear_bit PS_V_BIT s.reg.P } }

/-- `Cpu::apply_page_penalty`. -/
def apply_page_penalty (s : Cpu) : Cpu :=
  { s with extra_cycles := s.extra_cycles + s.page_penalty }

/-- `Cpu::get_branch_destination`: PC plus the operand byte reinterpreted
`as i8 as u16` (sign extension), with u16 wrap. -/
def get_branch_destination (s : Cpu) : Nat :=
  let ext := if s.operand_value % 256 < 128 then s.operand_value % 256 else 65280 + s.operand_value % 256
  (s.reg.PC + ext) % 65536

/-- `Cpu::branch_if_set`. -/
def branch_if_set (flag_bit : Nat) (s : Cpu) : Cpu :=
  if bit_is_set flag_bit s.reg.P then
    let s := { s with extra_cycles := s.extra_cycles + 1 }
    let dest := get_branch_destination s
    let s := if !same_page dest s.reg.PC then { s with extra_cycles := s.extra_cycles + 1 } else s
    { s with reg := { s.reg with PC := dest } }
  else s

/-- `Cpu::branch_if_clear`. -/
def branch_if_clear (flag_bit : Nat) (s : Cpu) : Cpu :=
  if !bit_is_set flag_bit s.reg.P then
    let s := { s with extra_cycles := s.extra_cycles + 1 }
    let dest := get_branch_destination s
    let s := if !same_page dest s.reg.PC then { s with extra_cycles := s.extra_cycles + 1 } else s
    { s with reg := { s.reg with PC := dest } }
  else s

/-! ### Stack operations -/

/-- `Cpu::stack_push` (empty-stack discipline: SP points at the next free
slot; SP decrements with u8 wrap). -/
def stack_push (s : Cpu) (value : Nat) : Cpu :=
  let push_addr := 0x0100 + s.reg.SP % 256
  let s := do_mem_write s push_addr value
  { s with reg := { s.reg with SP := (s.reg.SP + 255) % 256 } }

/-- `Cpu::stack_pull`. -/
def stack_pull (s : Cpu) : Nat × Cpu :=
  let s := { s with reg := { s.reg with SP := (s.reg.SP + 1) % 256 } }
  (do_mem_read s (0x0100 + s.reg.SP % 256), s)

/-- `Cpu::stack_push_word`: push the high byte, then the low byte. -/
def stack_push_word (s : Cpu) (value : Nat) : Cpu :=
  let s := stack_push s ((value / 256) % 256)
  stack_push s (value % 256)

/-- `Cpu::stack_pull_word`. -/
def stack_pull_word (s : Cpu) : Nat × Cpu :=
  let (lsb, s) := stack_pull s
  let (msb, s) := stack_pull s
  (lsb + 256 * msb, s)

/-- `Cpu::set_p_from_stack`: restore P from the stack, leaving bits 4 and
5 of P untouched. -/
def set_p_from_stack (s : Cpu) : Cpu :=
  let (stack_value, s) := stack_pull s
  let p := set_bit_from 0 stack_value s.reg.P
  let p := set_bit_from 1 stack_value p
  let p := set_bit_from 2 stack_value p
  let p := set_bit_from 3 stack_value p
  let p := set_bit_from 6 stack_value p
  let p := set_bit_from 7 stack_value p
  { s with reg := { s.reg with P := p } }

/-! ### Instruction executors (`Cpu::and`, `Cpu::adc`, ...) -/

/-- `Cpu::and`. -/
def instr_and (s : Cpu) : Cpu :=
  let s := fetch_operand s
  let s := { s with reg := { s.reg with A := s.reg.A &&& s.operand_value } }
  let s := update_nz_flags s.reg.A s
  apply_page_penalty s

/-- `Cpu::adc`: u8 add with carry; C from the chained u8 overflows, V from
the chained i8 overflows. -/
def instr_adc (s : Cpu) : Cpu :=
  let s := fetch_operand s
  let carry : Nat := if bit_is_set PS_C_BIT s.reg.P then 1 else 0
  let u8_result1 := (s.reg.A % 256 + s.operand_value % 256) % 256
  let u8_overflow1 := decide (256 ≤ s.reg.A % 256 + s.operand_value % 256)
  let u8_result2 := (u8_result1 + carry) % 256
  let u8_overflow2 := decide (256 ≤ u8_result1 + carry)
  let z1 := to_i8 s.reg.A + to_i8 s.operand_value
  let i8_overflow1 := i8_overflow z1
  let i8_result1 := wrap_i8 z1
  let i8_overflow2 := i8_overflow (i8_result1 + carry)
  let s := if u8_overflow1 || u8_overflow2 then set_c_flag s else clear_c_flag s
  let s := if i8_overflow1 || i8_overflow2 then set_v_flag s else clear_v_flag s
  let s := { s with reg := { s.reg with A := u8_result2 } }
  let s := update_nz_flags s.reg.A s
  apply_page_penalty s

/-- `Cpu::asl`. -/
def instr_asl (s : Cpu) : Cpu :=
  let s := fetch_operand s
  let s := if bit_is_set 7 s.operand_value then set_c_flag s else clear_c_flag s
  let result := (s.operand_value <<< 1) % 256
  let s := update_nz_flags result s
  match (op_lookup s.opcode).addr_mode with
  | .ACC => { s with reg := { s.reg with A := result } }
  | _ => do_mem_write s s.operand_address result

/-- `Cpu::bcc`. -/
def instr_bcc (s : Cpu) : Cpu :=
  branch_if_clear PS_C_BIT (fetch_operand s)

/-- `Cpu::bcs`. -/
def instr_bcs (s : Cpu) : Cpu :=
  branch_if_set PS_C_BIT (fetch_operand s)

/-- `Cpu::beq`. -/
def instr_beq (s : Cpu) : Cpu :=
  branch_if_set PS_Z_BIT (fetch_operand s)

/-- `Cpu::bit`. -/
def instr_bit (s : Cpu) : Cpu :=
  let s := fetch_operand s
  let and_result := s.reg.A &&& s.operand_value
  let s := update_z_flag and_result s
  let s := { s with reg := { s.reg with P := set_bit_from 6 s.operand_value s.reg.P } }
  { s with reg := { s.reg with P := set_bit_from 7 s.operand_value s.reg.P } }

/-- `Cpu::bmi`. -/
def instr_bmi (s : Cpu) : Cpu :=
  branch_if_set PS_N_BIT (fetch_operand s)

/-- `Cpu::bne`. -/
def instr_bne (s : Cpu) : Cpu :=
  branch_if_clear PS_Z_BIT (fetch_operand s)

/-- `Cpu::bpl`. -/
def instr_bpl (s : Cpu) : Cpu :=
  branch_if_clear PS_N_BIT (fetch_operand s)

/-- `Cpu::brk`: push PC (already advanced past the opcode byte), push P
with bits 4 and 5 set, load PC from $FFFE, then set bit `PS_B_BIT` of P. -/
def instr_brk (s : Cpu) : Cpu :=
  let s := stack_push_word s s.reg.PC
  let p_val := set_bit 5 (set_bit 4 s.reg.P)
  let s := stack_push s p_val
  let s := { s with reg := { s.reg with PC := do_mem_read_word s 0xFFFE } }
  { s with reg := { s.reg with P := set_bit PS_B_BIT s.reg.P } }

/-- `Cpu::bvc`. -/
def instr_bvc (s : Cpu) : Cpu :=
  branch_if_clear PS_V_BIT (fetch_operand s)

/-- `Cpu::bvs`. -/
def instr_bvs (s : Cpu) : Cpu :=
  branch_if_set PS_V_BIT (fetch_operand s)

/-- `Cpu::clc`. -/
def instr_clc (s : Cpu) : Cpu :=
  { s with reg := { s.reg with P := clear_bit PS_C_BIT s.reg.P } }

/-- `Cpu::cld`. -/
def instr_cld (s : Cpu) : Cpu :=
  { s with reg := { s.reg with P := clear_bit PS_D_BIT s.reg.P } }

/-- `Cpu::cli`. -/
def instr_cli (s : Cpu) : Cpu :=
  { s with reg := { s.reg with P := clear_bit PS_I_BIT s.reg.P } }

/-- `Cpu::clv`. -/
def instr_clv (s : Cpu) : Cpu :=
  { s with reg := { s.reg with P := clear_bit PS_V_BIT s.reg.P } }

/-- `Cpu::do_comparison` (shared by CMP / CPX / CPY / DCP); the N flag
comes from the u8 wrapping difference. -/
def do_comparison (register mem_value : Nat) (s : Cpu) : Cpu :=
  let s := if register % 256 ≥ mem_value % 256 then set_c_flag s else clear_c_flag s
  let s := if register % 256 = mem_value % 256
    then { s with reg := { s.reg with P := set_bit PS_Z_BIT s.reg.P } }
    else { s with reg := { s.reg with P := clear_bit PS_Z_BIT s.reg.P } }
  let result := (register % 256 + 256 - mem_value % 256) % 256
  { s with reg := { s.reg with P := set_bit_from PS_N_BIT result s.reg.P } }

/-- `Cpu::cmp`. -/
def instr_cmp (s : Cpu) : Cpu :=
  let s := fetch_operand s
  let s := do_comparison s.reg.A s.operand_value s
  apply_page_penalty s

/-- `Cpu::cpx`. -/
def instr_cpx (s : Cpu) : Cpu :=
  let s := fetch_operand s
  do_comparison s.reg.X s.operand_value s

/-- `Cpu::cpy`. -/
def instr_cpy (s : Cpu) : Cpu :=
  let s := fetch_operand s
  do_comparison s.reg.Y s.operand_value s

/-- `Cpu::dcp` (undocumented): DEC memory then compare with A; note it
calls `do_comparison` directly, so no page penalty is ever added. -/
def instr_dcp (s : Cpu) : Cpu :=
  let value := (do_mem_read s s.operand_address + 255) % 256
  let s := update_nz_flags value s
  let s := do_mem_write s s.operand_address value
  do_comparison s.reg.A value s

/-- `Cpu::dec`. -/
def instr_dec (s : Cpu) : Cpu :=
  let value := (do_mem_read s s.operand_address + 255) % 256
  let s := update_nz_flags value s
  do_mem_write s s.operand_address value

/-- `Cpu::dex`. -/
def instr_dex (s : Cpu) : Cpu :=
  let s := { s with reg := { s.reg with X := (s.reg.X % 256 + 255) % 256 } }
  update_nz_flags s.reg.X s

/-- `Cpu::dey`. -/
def instr_dey (s : Cpu) : Cpu :=
  let s := { s with reg := { s.reg with Y := (s.reg.Y % 256 + 255) % 256 } }
  update_nz_flags s.reg.Y s

/-- `Cpu::eor`. -/
def instr_eor (s : Cpu) : Cpu :=
  let s := fetch_operand s
  let s := { s with reg := { s.reg with A := s.reg.A ^^^ s.operand_value } }
  let s := update_nz_flags s.reg.A s
  apply_page_penalty s

/-- `Cpu::inc`. -/
def instr_inc (s : Cpu) : Cpu :=
  let value := (do_mem_read s s.operand_address + 1) % 256
  let s := update_nz_flags value s
  do_mem_write s s.operand_address value

/-- `Cpu::inx`. -/
def instr_inx (s : Cpu) : Cpu :=
  let s := { s with reg := { s.reg with X := (s.reg.X + 1) % 256 } }
  update_nz_flags s.reg.X s

/-- `Cpu::iny`. -/
def instr_iny (s : Cpu) : Cpu :=
  let s := { s with reg := { s.reg with Y := (s.reg.Y + 1) % 256 } }
  update_nz_flags s.reg.Y s

/-- `Cpu::jmp`. -/
def instr_jmp (s : Cpu) : Cpu :=
  { s with reg := { s.reg with PC := s.operand_address } }

/-- `Cpu::jsr` (`PC - 1` with u16 wrap). -/
def instr_jsr (s : Cpu) : Cpu :=
  let return_addr := (s.reg.PC + 65535) % 65536
  let s := stack_push_word s return_addr
  { s with reg := { s.reg with PC := s.operand_address } }

/-- `Cpu::lax` (undocumented): load A and X. -/
def instr_lax (s : Cpu) : Cpu :=
  let s := fetch_operand s
  let s := { s with reg := { s.reg with A := s.operand_value, X := s.operand_value } }
  let s := update_nz_flags s.reg.A s
  apply_page_penalty s

/-- `Cpu::lda`. -/
def instr_lda (s : Cpu) : Cpu :=
  let s := fetch_operand s
  let s := { s with reg := { s.reg with A := s.operand_value } }
  let s := update_nz_flags s.reg.A s
  apply_page_penalty s

/-- `Cpu::ldx`. -/
def instr_ldx (s : Cpu) : Cpu :=
  let s := fetch_operand s
  let s := { s with reg := { s.reg with X := s.operand_value } }
  let s := update_nz_flags s.reg.X s
  apply_page_penalty s

/-- `Cpu::ldy`. -/
def instr_ldy (s : Cpu) : Cpu :=
  let s := fetch_operand s
  let s := { s with reg := { s.reg with Y := s.operand_value } }
  let s := update_nz_flags s.reg.Y s
  apply_page_penalty s

/-- `Cpu::lsr`. -/
def instr_lsr (s : Cpu) : Cpu :=
  let s := fetch_operand s
  let s := if bit_is_set 0 s.operand_value then set_c_flag s else clear_c_flag s
  let result := s.operand_value >>> 1
  let s := update_nz_flags result s
  match (op_lookup s.opcode).addr_mode with
  | .ACC => { s with reg := { s.reg with A := result } }
  | _ => do_mem_write s s.operand_address result

/-- `Cpu::nop` (applies the page penalty so undocumented multi-byte NOPs
keep cycle-accurate timing). -/
def instr_nop (s : Cpu) : Cpu :=
  apply_page_penalty s

/-- `Cpu::ora`. -/
def instr_ora (s : Cpu) : Cpu :=
  let s := fetch_operand s
  let s := { s with reg := { s.reg with A := s.reg.A ||| s.operand_value } }
  let s := update_nz_flags s.reg.A s
  apply_page_penalty s

/-- `Cpu::pha`. -/
def instr_pha (s : Cpu) : Cpu :=
  stack_push s s.reg.A

/-- `Cpu::php`: push P with bits 4 and 5 set. -/
def instr_php (s : Cpu) : Cpu :=
  stack_push s (set_bit 5 (set_bit 4 s.reg.P))

/-- `Cpu::pla`. -/
def instr_pla (s : Cpu) : Cpu :=
  let (v, s) := stack_pull s
  let s := { s with reg := { s.reg with A := v } }
  update_nz_flags s.reg.A s

/-- `Cpu::plp`. -/
def instr_plp (s : Cpu) : Cpu :=
  set_p_from_stack s

/-- `Cpu::rol`. -/
def instr_rol (s : Cpu) : Cpu :=
  let s := fetch_operand s
  let bit0 : Nat := if bit_is_set PS_C_BIT s.reg.P then 1 else 0
  let s := if bit_is_set 7 s.operand_value then set_c_flag s else clear_c_flag s
  let result := ((s.operand_value <<< 1) % 256) ||| bit0
  let s := update_nz_flags result s
  match (op_lookup s.opcode).addr_mode with
  | .ACC => { s with reg := { s.reg with A := result } }
  | _ => do_mem_write s s.operand_address result

/-- `Cpu::rla` (undocumented): ROL + AND, with the inadvertent page
penalty of `Cpu::and` subtracted back off. -/
def instr_rla (s : Cpu) : Cpu :=
  let s := instr_and (instr_rol s)
  { s with extra_cycles := s.extra_cycles - s.page_penalty }

/-- `Cpu::ror`. -/
def instr_ror (s : Cpu) : Cpu :=
  let s := fetch_operand s
  let bit7 : Nat := if bit_is_set PS_C_BIT s.reg.P then 128 else 0
  let s := if bit_is_set 0 s.operand_value then set_c_flag s else clear_c_flag s
  let result := (s.operand_value >>> 1) ||| bit7
  let s := update_nz_flags result s
  match (op_lookup s.opcode).addr_mode with
  | .ACC => { s with reg := { s.reg with A := result } }
  | _ => do_mem_write s s.operand_address result

/-- `Cpu::rra` (undocumented): ROR + ADC, with the inadvertent page
penalty of `Cpu::adc` subtracted back off. -/
def instr_rra (s : Cpu) : Cpu :=
  let s := instr_adc (instr_ror s)
  { s with extra_cycles := s.extra_cycles - s.page_penalty }

/-- `Cpu::rti`. -/
def instr_rti (s : Cpu) : Cpu :=
  let s := set_p_from_stack s
  let (w, s) := stack_pull_word s
  { s with reg := { s.reg with PC := w } }

/-- `Cpu::rts` (`PC + 1` with u16 wrap). -/
def instr_rts (s : Cpu) : Cpu :=
  let (w, s) := stack_pull_word s
  { s with reg := { s.reg with PC := (w + 1) % 65536 } }

/-- `Cpu::sax` (undocumented): store A AND X. -/
def instr_sax (s : Cpu) : Cpu :=
  do_mem_write s s.operand_address (s.reg.A &&& s.reg.X)

/-- `Cpu::sbc`: u8 subtract with borrow; C cleared on a u8 borrow, V from
the chained i8 overflows. -/
def instr_sbc (s : Cpu) : Cpu :=
  let s := fetch_operand s
  let carry : Nat := if bit_is_set PS_C_BIT s.reg.P then 0 else 1
  let u8_result1 := (s.reg.A % 256 + 256 - s.operand_value % 256) % 256
  let u8_overflow1 := decide (s.reg.A % 256 < s.operand_value % 256)
  let u8_result2 := (u8_result1 + 256 - carry) % 256
  let u8_overflow2 := decide (u8_result1 < carry)
  let z1 := to_i8 s.reg.A - to_i8 s.operand_value
  let i8_overflow1 := i8_overflow z1
  let i8_result1 := wrap_i8 z1
  let i8_overflow2 := i8_overflow (i8_result1 - carry)
  let s := if u8_overflow1 || u8_overflow2 then clear_c_flag s else set_c_flag s
  let s := if i8_overflow1 || i8_overflow2 then set_v_flag s else clear_v_flag s
  let s := { s with reg := { s.reg with A := u8_result2 } }
  let s := update_nz_flags s.reg.A s
  apply_page_penalty s

/-- `Cpu::isb` (undocumented): INC + SBC, with the inadvertent page
penalty of `Cpu::sbc` subtracted back off. -/
def instr_isb (s : Cpu) : Cpu :=
  let s := instr_sbc (instr_inc s)
  { s with extra_cycles := s.extra_cycles - s.page_penalty }

/-- `Cpu::sec`. -/
def instr_sec (s : Cpu) : Cpu :=
  { s with reg := { s.reg with P := set_bit PS_C_BIT s.reg.P } }

/-- `Cpu::sed`. -/
def instr_sed (s : Cpu) : Cpu :=
  { s with reg := { s.reg with P := set_bit PS_D_BIT s.reg.P } }

/-- `Cpu::sei`. -/
def instr_sei (s : Cpu) : Cpu :=
  { s with reg := { s.reg with P := set_bit PS_I_BIT s.reg.P } }

/-- `Cpu::slo` (undocumented): ASL + ORA, with the inadvertent page
penalty of `Cpu::ora` subtracted back off. -/
def instr_slo (s : Cpu) : Cpu :=
  let s := instr_ora (instr_asl s)
  { s with extra_cycles := s.extra_cycles - s.page_penalty }

/-- `Cpu::sre` (undocumented): LSR + EOR, with the inadvertent page
penalty of `Cpu::eor` subtracted back off. -/
def instr_sre (s : Cpu) : Cpu :=
  let s := instr_eor (instr_lsr s)
  { s with extra_cycles := s.extra_cycles - s.page_penalty }

/-- `Cpu::sta`. -/
def instr_sta (s : Cpu) : Cpu :=
  do_mem_write s s.operand_address s.reg.A

/-- `Cpu::stx`. -/
def instr_stx (s : Cpu) : Cpu :=
  do_mem_write s s.operand_address s.reg.X

/-- `Cpu::sty`. -/
def instr_sty (s : Cpu) : Cpu :=
  do_mem_write s s.operand_address s.reg.Y

/-- `Cpu::tax`. -/
def instr_tax (s : Cpu) : Cpu :=
  let s := { s with reg := { s.reg with X := s.reg.A } }
  update_nz_flags s.reg.X s

/-- `Cpu::tay`. -/
def instr_tay (s : Cpu) : Cpu :=
  let s := { s with reg := { s.reg with Y := s.reg.A } }
  update_nz_flags s.reg.Y s

/-- `Cpu::tsx`. -/
def instr_tsx (s : Cpu) : Cpu :=
  let s := { s with reg := { s.reg with X := s.reg.SP } }
  update_nz_flags s.reg.X s

/-- `Cpu::txa`. -/
def instr_txa (s : Cpu) : Cpu :=
  let s := { s with reg := { s.reg with A := s.reg.X } }
  update_nz_flags s.reg.A s

/-- `Cpu::txs`. -/
def instr_txs (s : Cpu) : Cpu :=
  { s with reg := { s.reg with SP := s.reg.X } }

/-- `Cpu::tya`. -/
def instr_tya (s : Cpu) : Cpu :=
  let s := { s with reg := { s.reg with A := s.reg.Y } }
  update_nz_flags s.reg.A s

/-- Dispatch an executor by table entry.  `Cpu::oops` terminates the Rust
process; `execute` below therefore returns `none` for such opcodes and
this dispatcher is never consulted for them (mapped to the identity). -/
def run_op (n : OpName) (s : Cpu) : Cpu :=
  match n with
  | .adc => instr_adc s
  | .opAnd => instr_and s
  | .asl => instr_asl s
  | .bcc => instr_bcc s
  | .bcs => instr_bcs s
  | .beq => instr_beq s
  | .bit => instr_bit s
  | .bmi => instr_bmi s
  | .bne => instr_bne s
  | .bpl => instr_bpl s
  | .brk => instr_brk s
  | .bvc => instr_bvc s
  | .bvs => instr_bvs s
  | .clc => instr_clc s
  | .cld => instr_cld s
  | .cli => instr_cli s
  | .clv => instr_clv s
  | .cmp => instr_cmp s
  | .cpx => instr_cpx s
  | .cpy => instr_cpy s
  | .dcp => instr_dcp s
  | .dec => instr_dec s
  | .dex => instr_dex s
  | .dey => instr_dey s
  | .eor => instr_eor s
  | .inc => instr_inc s
  | .inx => instr_inx s
  | .iny => instr_iny s
  | .isb => instr_isb s
  | .jmp => instr_jmp s
  | .jsr => instr_jsr s
  | .lax => instr_lax s
  | .lda => instr_lda s
  | .ldx => instr_ldx s
  | .ldy => instr_ldy s
  | .lsr => instr_lsr s
  | .nop => instr_nop s
  | .oops => s
  | .ora => instr_ora s
  | .pha => instr_pha s
  | .php => instr_php s
  | .pla => instr_pla s
  | .plp => instr_plp s
  | .rla => instr_rla s
  | .rol => instr_rol s
  | .ror => instr_ror s
  | .rra => instr_rra s
  | .rti => instr_rti s
  | .rts => instr_rts s
  | .sax => instr_sax s
  | .sbc => instr_sbc s
  | .sec => instr_sec s
  | .sed => instr_sed s
  | .sei => instr_sei s
  | .slo => instr_slo s
  | .sre => instr_sre s
  | .sta => instr_sta s
  | .stx => instr_stx s
  | .sty => instr_sty s
  | .tax => instr_tax s
  | .tay => instr_tay s
  | .tsx => instr_tsx s
  | .txa => instr_txa s
  | .txs => instr_txs s
  | .tya => instr_tya s

/--
`Cpu::execute`: fetch the opcode, reset the penalty bookkeeping, decode
the operand, run the executor, and return the cycles consumed
(`instruction.cycles + extra_cycles`).  For the unimplemented-opcode
handler `Cpu::oops` the Rust process exits; embedded as `none`.
-/
def execute (s : Cpu) : Option (Cpu × Nat) :=
  let (opcode, s) := read_byte s
  let s := { s with opcode := opcode }
  let instruction := op_lookup opcode
  let s := { s with page_penalty := 0, extra_cycles := 0 }
  let s := set_operand_address instruction.addr_mode s
  if instruction.func = OpName.oops then none
  else
    let s := run_op instruction.func s
    some (s, instruction.cycles + s.extra_cycles)

end Cpu

/-! ## src/mem.rs : Memory -/

/-- `Memory::load`: store `data` byte by byte starting at `addr`
(the Rust panics instead of wrapping past the end of the vector). -/
def mem_load (m : Nat → Nat) (addr : Nat) : List Nat → (Nat → Nat)
  | [] => m
  | v :: rest => mem_load (upd m addr v) (addr + 1) rest

/-- `Memory::wrapping_load`: store `data` byte by byte starting at
`addr`, wrapping to 0 when the write location reaches `len`
(`self.mem.len()` in the source). -/
def wrapping_load (m : Nat → Nat) (len addr : Nat) : List Nat → (Nat → Nat)
  | [] => m
  | v :: rest =>
      let m := upd m addr v
      let location := addr + 1
      wrapping_load m len (if location = len then 0 else location) rest

/-- `Memory::get_slice(start_addr, size)` as the list of bytes it
denotes. -/
def get_slice (m : Nat → Nat) (start_addr size : Nat) : List Nat :=
  (List.range size).map (fun i => m (start_addr + i))

/-! ## src/ppu/constants.rs -/

def NAMETABLE_0 : Nat := 0x2000

def NAMETABLE_0_END : Nat := NAMETABLE_0 + 0x03FF

def NAMETABLE_1 : Nat := 0x2400

def NAMETABLE_1_END : Nat := NAMETABLE_1 + 0x03FF

def NAMETABLE_2 : Nat := 0x2800

def NAMETABLE_2_END : Nat := NAMETABLE_2 + 0x03FF

def NAMETABLE_3 : Nat := 0x2C00

def NAMETABLE_3_END : Nat := NAMETABLE_3 + 0x03FF

def OAM_SIZE : Nat := 256

/-- `ppu::constants::Mirroring` (also reused for the structurally
identical mapper-local enum in `m001_mmc1.rs`). -/
inductive Mirroring
  | Vertical | Horizontal | OneScreen0 | OneScreen1
deriving DecidableEq, Repr

/-! ## src/mem.rs : PpuMemory -/

/-- `mem::PpuMemory`: 16 KiB PPU address space plus the two physical
1 KiB VRAM banks; nametable addresses are routed into the banks. -/
structure PpuMemory where
  mem : Nat → Nat
  vram_bank0 : Nat → Nat
  vram_bank1 : Nat → Nat
  mirroring : Mirroring

namespace PpuMemory

/-- `PpuMemory::set_mirroring`. -/
def set_mirroring (p : PpuMemory) (mode : Mirroring) : PpuMemory :=
  { p with mirroring := mode }

/-- `PpuMemory::get_effective_address`: wrap at $4000 and mirror
$3F20-$3FFF down onto $3F00-$3F1F. -/
def get_effective_address (addr : Nat) : Nat :=
  let effective_addr := addr % 0x4000
  if 0x3F20 ≤ effective_addr ∧ effective_addr ≤ 0x3FFF then
    effective_addr &&& 0x3F1F
  else
    effective_addr

/-- `PpuMemory::read_nametable`. -/
def read_nametable (p : PpuMemory) (addr : Nat) : Nat :=
  if NAMETABLE_0 ≤ addr ∧ addr ≤ NAMETABLE_0_END then
    let vram_addr := addr - NAMETABLE_0
    match p.mirroring with
    | .Vertical | .Horizontal | .OneScreen0 => p.vram_bank0 vram_addr
    | .OneScreen1 => p.vram_bank1 vram_addr
  else if NAMETABLE_1 ≤ addr ∧ addr ≤ NAMETABLE_1_END then
    let vram_addr := addr - NAMETABLE_1
    match p.mirroring with
    | .Vertical => p.vram_bank1 vram_addr
    | .Horizontal | .OneScreen0 => p.vram_bank0 vram_addr
    | .OneScreen1 => p.vram_bank1 vram_addr
  else if NAMETABLE_2 ≤ addr ∧ addr ≤ NAMETABLE_2_END then
    let vram_addr := addr - NAMETABLE_2
    match p.mirroring with
    | .Vertical | .OneScreen0 => p.vram_bank0 vram_addr
    | .Horizontal | .OneScreen1 => p.vram_bank1 vram_addr
  else
    let vram_addr := addr - NAMETABLE_3
    match p.mirroring with
    | .Vertical | .Horizontal | .OneScreen1 => p.vram_bank1 vram_addr
    | .OneScreen0 => p.vram_bank0 vram_addr

/-- `PpuMemory::write_nametable`. -/
def write_nametable (p : PpuMemory) (addr value : Nat) : PpuMemory :=
  if NAMETABLE_0 ≤ addr ∧ addr ≤ NAMETABLE_0_END then
    let vram_addr := addr - NAMETABLE_0
    match p.mirroring with
    | .Vertical | .Horizontal | .OneScreen0 => { p with vram_bank0 := upd p.vram_bank0 vram_addr value }
    | .OneScreen1 => { p with vram_bank1 := upd p.vram_bank1 vram_addr value }
  else if NAMETABLE_1 ≤ addr ∧ addr ≤ NAMETABLE_1_END then
    let vram_addr := addr - NAMETABLE_1
    match p.mirroring with
    | .Vertical => { p with vram_bank1 := upd p.vram_bank1 vram_addr value }
    | .Horizontal | .OneScreen0 => { p with vram_bank0 := upd p.vram_bank0 vram_addr value }
    | .OneScreen1 => { p with vram_bank1 := upd p.vram_bank1 vram_addr value }
  else if NAMETABLE_2 ≤ addr ∧ addr ≤ NAMETABLE_2_END then
    let vram_addr := addr - NAMETABLE_2
    match p.mirroring with
    | .Vertical | .OneScreen0 => { p with vram_bank0 := upd p.vram_bank0 vram_addr value }
    | .Horizontal | .OneScreen1 => { p with vram_bank1 := upd p.vram_bank1 vram_addr value }
  else
    let vram_addr := addr - NAMETABLE_3
    match p.mirroring with
    | .Vertical | .Horizontal | .OneScreen1 => { p with vram_bank1 := upd p.vram_bank1 vram_addr value }
    | .OneScreen0 => { p with vram_bank0 := upd p.vram_bank0 vram_addr value }

/-- `PpuMemory::read`. -/
def read (p : PpuMemory) (addr : Nat) : Nat :=
  let addr := get_effective_address addr
  if NAMETABLE_0 ≤ addr ∧ addr ≤ NAMETABLE_3_END then
    read_nametable p addr
  else
    p.mem addr

/-- `PpuMemory::write`: nametable routing plus the four palette-RAM
alias pairs ($3F00/$3F10, $3F04/$3F14, $3F08/$3F18, $3F0C/$3F1C), each
of which is written through both addresses. -/
def write (p : PpuMemory) (addr value : Nat) : PpuMemory :=
  let addr := get_effective_address addr
  if NAMETABLE_0 ≤ addr ∧ addr ≤ NAMETABLE_3_END then
    write_nametable p addr value
  else if addr = 0x3F00 ∨ addr = 0x3F10 then
    { p with mem := upd (upd p.mem 0x3F00 value) 0x3F10 value }
  else if addr = 0x3F04 ∨ addr = 0x3F14 then
    { p with mem := upd (upd p.mem 0x3F04 value) 0x3F14 value }
  else if addr = 0x3F08 ∨ addr = 0x3F18 then
    { p with mem := upd (upd p.mem 0x3F08 value) 0x3F18 value }
  else if addr = 0x3F0C ∨ addr = 0x3F1C then
    { p with mem := upd (upd p.mem 0x3F0C value) 0x3F1C value }
  else
    { p with mem := upd p.mem addr value }

end PpuMemory

/-! ## src/ppu.rs : PPU register file and port handlers -/

/-- `ppu::Toggle`: the internal write flag w. -/
inductive Toggle
  | FirstWrite | SecondWrite
deriving DecidableEq, Repr

/-- `Toggle::toggle`. -/
def Toggle.tog : Toggle → Toggle
  | .FirstWrite => .SecondWrite
  | .SecondWrite => .FirstWrite

/-- `ppu::SpriteSize` (from ppu/sprite.rs). -/
inductive SpriteSize
  | Sprite8x8 | Sprite8x16
deriving DecidableEq, Repr

/-- `ppu::PpuCtrl`: the raw $2000 byte and its parsed fields. -/
structure PpuCtrl where
  value : Nat
  base_nt_addr : Nat
  vram_increment : Nat
  sprite_pt_addr_8x8 : Nat
  bg_pt_addr : Nat
  sprite_size : SpriteSize
  generate_nmi : Bool
deriving DecidableEq, Repr

namespace PpuCtrl

/-- `PpuCtrl::get_base_nt_addr` (index is `value & 3`, so the final
branch is index 3). -/
def get_base_nt_addr (value : Nat) : Nat :=
  let index := value &&& 0x3
  if index = 0 then 0x2000
  else if index = 1 then 0x2400
  else if index = 2 then 0x2800
  else 0x2C00

/-- `PpuCtrl::update`: reparse every field from the raw byte. -/
def update (value : Nat) : PpuCtrl :=
  { value
    base_nt_addr := get_base_nt_addr value
    vram_increment := if bit_is_set 2 value then 32 else 1
    sprite_pt_addr_8x8 := if bit_is_set 3 value then 0x1000 else 0x0
    bg_pt_addr := if bit_is_set 4 value then 0x1000 else 0x0
    sprite_size := if bit_is_set 5 value then SpriteSize.Sprite8x16 else SpriteSize.Sprite8x8
    generate_nmi := bit_is_set 7 value }

end PpuCtrl

/-- `ppu::PpuMask`: the raw $2001 byte and its parsed fields. -/
structure PpuMask where
  value : Nat
  greyscale : Bool
  show_bg_leftmost_8px : Bool
  show_sprites_leftmost_8px : Bool
  render_bg : Bool
  render_sprites : Bool
  emphasize_red : Bool
  emphasize_green : Bool
  emphasize_blue : Bool
deriving DecidableEq, Repr

/-- `PpuMask::update`. -/
def PpuMask.update (value : Nat) : PpuMask :=
  { value
    greyscale := bit_is_set 0 value
    show_bg_leftmost_8px := bit_is_set 1 value
    show_sprites_leftmost_8px := bit_is_set 2 value
    render_bg := bit_is_set 3 value
    render_sprites := bit_is_set 4 value
    emphasize_red := bit_is_set 5 value
    emphasize_green := bit_is_set 6 value
    emphasize_blue := bit_is_set 7 value }

/-- `ppu::PpuRegisters`. -/
structure PpuRegisters where
  ppu_ctrl : PpuCtrl
  ppu_mask : PpuMask
  ppu_status : Nat
  oam_addr : Nat
  v : Nat
  t : Nat
  x : Nat
  w : Toggle
deriving DecidableEq, Repr

/--
`ppu::Ppu`, restricted to the state that the CPU-visible port handlers
read or write: the register file, primary OAM, the $2007 read buffer and
the scanline counters.  The rendering pipeline state (shift registers,
secondary OAM, sprite buffers, frame buffer) is never touched by any
port handler and is omitted.
-/
structure Ppu where
  reg : PpuRegisters
  oam : Nat → Nat
  ppudata_read_buffer : Nat
  scanline : Nat
  scanline_cycle : Nat

namespace Ppu

/-- `Ppu::write_2000_ppuctrl`: reparse PPUCTRL and copy the nametable
bits into t bits 10-11. -/
def write_2000_ppuctrl (p : Ppu) (value : Nat) : Ppu :=
  let p := { p with reg := { p.reg with ppu_ctrl := PpuCtrl.update value } }
  let nt_bits := value <<< 10
  { p with reg := { p.reg with t := set_bits_from_mask_u16 nt_bits 0xC00 p.reg.t } }

/-- `Ppu::write_2001_ppumask`. -/
def write_2001_ppumask (p : Ppu) (value : Nat) : Ppu :=
  { p with reg := { p.reg with ppu_mask := PpuMask.update value } }

/-- `Ppu::read_2002_ppustatus`: return the status byte; clear bit 7 and
reset the write toggle as side effects. -/
def read_2002_ppustatus (p : Ppu) : Nat × Ppu :=
  let return_status := p.reg.ppu_status
  let p := { p with reg := { p.reg with ppu_status := clear_bit 7 p.reg.ppu_status } }
  (return_status, { p with reg := { p.reg with w := Toggle.FirstWrite } })

/-- `Ppu::write_2003_oamaddr`. -/
def write_2003_oamaddr (p : Ppu) (value : Nat) : Ppu :=
  { p with reg := { p.reg with oam_addr := value } }

/-- `Ppu::read_2004_oamdata`: 0xFF during the secondary-OAM clear window,
otherwise the OAM byte at OAMADDR. -/
def read_2004_oamdata (p : Ppu) : Nat :=
  if p.scanline ≤ 239 ∧ (1 ≤ p.scanline_cycle ∧ p.scanline_cycle ≤ 64) then
    0xFF
  else
    p.oam p.reg.oam_addr

/-- `Ppu::write_2004_oamdata`: store at OAMADDR, then increment OAMADDR
with u8 wrap. -/
def write_2004_oamdata (p : Ppu) (value : Nat) : Ppu :=
  let p := { p with oam := upd p.oam p.reg.oam_addr value }
  { p with reg := { p.reg with oam_addr := (p.reg.oam_addr + 1) % 256 } }

/-- `Ppu::write_2005_ppuscroll`: two-phase scroll write through w. -/
def write_2005_ppuscroll (p : Ppu) (value : Nat) : Ppu :=
  match p.reg.w with
  | .FirstWrite =>
      let p := { p with reg := { p.reg with t := set_bits_from_mask_u16 (value >>> 3) 0x1F p.reg.t } }
      let p := { p with reg := { p.reg with x := value &&& 0x7 } }
      { p with reg := { p.reg with w := p.reg.w.tog } }
  | .SecondWrite =>
      let fgh := value <<< 12
      let abcde := value <<< 2
      let p := { p with reg := { p.reg with t := set_bits_from_mask_u16 fgh 0x7000 p.reg.t } }
      let p := { p with reg := { p.reg with t := set_bits_from_mask_u16 abcde 0x3E0 p.reg.t } }
      { p with reg := { p.reg with w := p.reg.w.tog } }

/-- `Ppu::write_2006_ppuaddr`: two-phase address write through w; the
second write mirrors t down below $4000 and copies t into v. -/
def write_2006_ppuaddr (p : Ppu) (value : Nat) : Ppu :=
  match p.reg.w with
  | .FirstWrite =>
      let value_u16 := (value &&& 0x3F) <<< 8
      let p := { p with reg := { p.reg with t := set_bits_from_mask_u16 value_u16 0xFF00 p.reg.t } }
      { p with reg := { p.reg with w := p.reg.w.tog } }
  | .SecondWrite =>
      let p := { p with reg := { p.reg with t := set_bits_from_mask_u16 value 0xFF p.reg.t } }
      let p := { p with reg := { p.reg with t := p.reg.t &&& 0x3FFF } }
      let p := { p with reg := { p.reg with v := p.reg.t } }
      { p with reg := { p.reg with w := p.reg.w.tog } }

/-- `Ppu::oam_dma`: bulk-load the 256-byte OAM through
`Memory::wrapping_load`, starting at OAMADDR (a u8 in the source, hence
the reduction mod 256). -/
def oam_dma (p : Ppu) (data : List Nat) : Ppu :=
  { p with oam := wrapping_load p.oam OAM_SIZE (p.reg.oam_addr % 256) data }

end Ppu

/-! ## src/mappers -/

/--
Modelled from the spec: `mappers::get_ppu_effective_address`, imported by
`m001_mmc1.rs` from its parent module but absent from the copy of
`mappers/mod.rs` under src/.  Per the spec, the PPU address space wraps
mod $4000 and $3F20-$3FFF mirrors $3F00-$3F1F; this matches the
identically documented `PpuMemory::get_effective_address` in src/mem.rs.
-/
def get_ppu_effective_address (addr : Nat) : Nat :=
  let effective_addr := addr % 0x4000
  if 0x3F20 ≤ effective_addr ∧ effective_addr ≤ 0x3FFF then
    effective_addr &&& 0x3F1F
  else
    effective_addr

/-- `m000_nrom::NromMapper`. -/
structure NromMapper where
  cpu_mem : Nat → Nat
  ppu_mem : PpuMemory
  mirroring : Mirroring
  chr_ram : Bool

namespace NromMapper

/-- `NromMapper::cpu_read`. -/
def cpu_read (m : NromMapper) (addr : Nat) : Nat :=
  m.cpu_mem addr

/-- `NromMapper::cpu_write`: writes into ROM space ($8000 and up) are
ignored. -/
def cpu_write (m : NromMapper) (addr value : Nat) : NromMapper :=
  if addr < 0x8000 then { m with cpu_mem := upd m.cpu_mem addr value } else m

/-- `NromMapper::get_cpu_dma_slice`. -/
def get_cpu_dma_slice (m : NromMapper) (addr : Nat) : List Nat :=
  get_slice m.cpu_mem addr 256

/-- `NromMapper::ppu_read`. -/
def ppu_read (m : NromMapper) (addr : Nat) : Nat :=
  m.ppu_mem.read addr

/-- `NromMapper::ppu_write`: pattern-table writes only when CHR RAM is
present; everything else through `PpuMemory::write`. -/
def ppu_write (m : NromMapper) (addr value : Nat) : NromMapper :=
  if addr ≤ 0x1FFF then
    if m.chr_ram then { m with ppu_mem := m.ppu_mem.write addr value } else m
  else
    { m with ppu_mem := m.ppu_mem.write addr value }

end NromMapper

/-- `m002_unrom::UnromMapper`. -/
structure UnromMapper where
  cpu_mem : Nat → Nat
  ppu_mem : PpuMemory
  mirroring : Mirroring
  prg_rom_banks : List (List Nat)

namespace UnromMapper

/-- `UnromMapper::cpu_read`. -/
def cpu_read (m : UnromMapper) (addr : Nat) : Nat :=
  m.cpu_mem addr

/-- `UnromMapper::cpu_write`: a write at $8000 or above switches the
16 KiB bank at $8000 to bank `value & 0x0F` (the Rust panics when the
bank index is out of range; out-of-range indices map to the empty
list here). -/
def cpu_write (m : UnromMapper) (addr value : Nat) : UnromMapper :=
  if addr < 0x8000 then
    { m with cpu_mem := upd m.cpu_mem addr value }
  else
    let bank := value &&& 0x0F
    { m with cpu_mem := mem_load m.cpu_mem 0x8000 (m.prg_rom_banks.getD bank []) }

/-- `UnromMapper::get_cpu_dma_slice`. -/
def get_cpu_dma_slice (m : UnromMapper) (addr : Nat) : List Nat :=
  get_slice m.cpu_mem addr 256

/-- `UnromMapper::ppu_read`. -/
def ppu_read (m : UnromMapper) (addr : Nat) : Nat :=
  m.ppu_mem.read addr

/-- `UnromMapper::ppu_write`. -/
def ppu_write (m : UnromMapper) (addr value : Nat) : UnromMapper :=
  { m with ppu_mem := m.ppu_mem.write addr value }

end UnromMapper

/-- `m001_mmc1::RegisterStatus`. -/
inductive RegisterStatus
  | Cleared | Ready | Partial
deriving DecidableEq, Repr

/-- `m001_mmc1::PrgRomBankMode`. -/
inductive PrgRomBankMode
  | Bank8000_32KB | Bank8000Fixed | BankC000Fixed
deriving DecidableEq, Repr

/-- `m001_mmc1::ChrRomBankMode`. -/
inductive ChrRomBankMode
  | Switch8KB | Switch4KB
deriving DecidableEq, Repr

/-- `m001_mmc1::Mmc1Mapper`.  Unlike NROM and UNROM, its `ppu_mem` field
is a plain `Memory` byte array, not a `PpuMemory`. -/
structure Mmc1Mapper where
  cpu_mem : Nat → Nat
  ppu_mem : Nat → Nat
  mirroring : Mirroring
  prg_rom_banks : List (List Nat)
  chr_rom_banks : List (List Nat)
  shift_register : Nat
  reg_write_count : Nat
  prg_rom_bank_mode : PrgRomBankMode
  chr_rom_bank_mode : ChrRomBankMode

namespace Mmc1Mapper

/-- `Mmc1Mapper::push_shift_reg`: serial 5-bit loading; a value with bit
7 set clears the register and the write count. -/
def push_shift_reg (m : Mmc1Mapper) (value : Nat) : RegisterStatus × Mmc1Mapper :=
  if bit_is_set 7 value then
    (.Cleared, { m with shift_register := 0, reg_write_count := 0 })
  else
    let shift_register := (m.shift_register >>> 1) ||| ((value &&& 0x1) <<< 4)
    let reg_write_count := m.reg_write_count + 1
    if reg_write_count = 5 then
      (.Ready, { m with shift_register, reg_write_count := 0 })
    else
      (.Partial, { m with shift_register, reg_write_count })

/-- `Mmc1Mapper::mirror_nametables`: copy 1 KiB nametable regions inside
the flat PPU memory according to the current mirroring mode. -/
def mirror_nametables (m : Mmc1Mapper) : Mmc1Mapper :=
  match m.mirroring with
  | .Vertical =>
      let mem := mem_load m.ppu_mem 0x2800 (get_slice m.ppu_mem 0x2000 0x400)
      let mem := mem_load mem 0x2C00 (get_slice mem 0x2400 0x400)
      { m with ppu_mem := mem }
  | .Horizontal =>
      let mem := mem_load m.ppu_mem 0x2400 (get_slice m.ppu_mem 0x2000 0x400)
      let mem := mem_load mem 0x2C00 (get_slice mem 0x2800 0x400)
      { m with ppu_mem := mem }
  | .OneScreen0 =>
      let nt_slice := get_slice m.ppu_mem 0x2000 0x400
      let mem := mem_load m.ppu_mem 0x2400 nt_slice
      let mem := mem_load mem 0x2800 nt_slice
      let mem := mem_load mem 0x2C00 nt_slice
      { m with ppu_mem := mem }
  | .OneScreen1 =>
      let nt_slice := get_slice m.ppu_mem 0x2400 0x400
      let mem := mem_load m.ppu_mem 0x2000 nt_slice
      let mem := mem_load mem 0x2800 nt_slice
      let mem := mem_load mem 0x2C00 nt_slice
      { m with ppu_mem := mem }

/-- `Mmc1Mapper::handle_control_register`: decode mirroring, PRG mode and
CHR mode from the 5-bit shift register (always below 32, so every match
is exhaustive). -/
def handle_control_register (m : Mmc1Mapper) : Mmc1Mapper :=
  let mirror_mode := m.shift_register &&& 0x03
  let prg_mode := (m.shift_register >>> 2) &&& 0x03
  let chr_mode := (m.shift_register >>> 4) &&& 0x01
  let m := { m with mirroring :=
    if mirror_mode = 0 then Mirroring.OneScreen0
    else if mirror_mode = 1 then Mirroring.OneScreen1
    else if mirror_mode = 2 then Mirroring.Vertical
    else Mirroring.Horizontal }
  let m := mirror_nametables m
  let m := { m with prg_rom_bank_mode :=
    if prg_mode = 0 ∨ prg_mode = 1 then PrgRomBankMode.Bank8000_32KB
    else if prg_mode = 2 then PrgRomBankMode.Bank8000Fixed
    else PrgRomBankMode.BankC000Fixed }
  { m with chr_rom_bank_mode :=
    if chr_mode = 0 then ChrRomBankMode.Switch8KB else ChrRomBankMode.Switch4KB }

/-- `Mmc1Mapper::handle_chr0_register` (out-of-range bank indices panic
in the Rust; mapped to the empty list here). -/
def handle_chr0_register (m : Mmc1Mapper) : Mmc1Mapper :=
  match m.chr_rom_bank_mode with
  | .Switch8KB =>
      let bank := m.shift_register &&& 0x1E
      let mem := mem_load m.ppu_mem 0x0000 (m.chr_rom_banks.getD bank [])
      let mem := mem_load mem 0x1000 (m.chr_rom_banks.getD (bank + 1) [])
      { m with ppu_mem := mem }
  | .Switch4KB =>
      { m with ppu_mem := mem_load m.ppu_mem 0x0000 (m.chr_rom_banks.getD m.shift_register []) }

/-- `Mmc1Mapper::handle_chr1_register`. -/
def handle_chr1_register (m : Mmc1Mapper) : Mmc1Mapper :=
  match m.chr_rom_bank_mode with
  | .Switch8KB => m
  | .Switch4KB =>
      { m with ppu_mem := mem_load m.ppu_mem 0x1000 (m.chr_rom_banks.getD m.shift_register []) }

/-- `Mmc1Mapper::handle_prg_register`. -/
def handle_prg_register (m : Mmc1Mapper) : Mmc1Mapper :=
  match m.prg_rom_bank_mode with
  | .Bank8000_32KB =>
      let bank := m.shift_register &&& 0x1E
      let mem := mem_load m.cpu_mem 0x8000 (m.prg_rom_banks.getD bank [])
      let mem := mem_load mem 0xC000 (m.prg_rom_banks.getD (bank + 1) [])
      { m with cpu_mem := mem }
  | .Bank8000Fixed =>
      { m with cpu_mem := mem_load m.cpu_mem 0xC000 (m.prg_rom_banks.getD m.shift_register []) }
  | .BankC000Fixed =>
      { m with cpu_mem := mem_load m.cpu_mem 0x8000 (m.prg_rom_banks.getD m.shift_register []) }

/-- `Mmc1Mapper::reset`: run `handle_control_register` with the shift
register forced to 0x0C, clear the shift register, and fix the last PRG
bank at $C000. -/
def reset (m : Mmc1Mapper) : Mmc1Mapper :=
  let m := { m with shift_register := 0x0C }
  let m := handle_control_register m
  let m := { m with shift_register := 0 }
  let n := m.prg_rom_banks.length
  { m with cpu_mem := mem_load m.cpu_mem 0xC000 (m.prg_rom_banks.getD (n - 1) []) }

/-- `Mmc1Mapper::cpu_read`. -/
def cpu_read (m : Mmc1Mapper) (addr : Nat) : Nat :=
  m.cpu_mem addr

/-- `Mmc1Mapper::cpu_write`: serial interface at $8000 and above; the
target internal register is selected by address bits 13-14 once five
bits have been shifted in. -/
def cpu_write (m : Mmc1Mapper) (addr value : Nat) : Mmc1Mapper :=
  if 0x8000 ≤ addr then
    match push_shift_reg m value with
    | (.Cleared, m) => reset m
    | (.Ready, m) =>
        let m :=
          if addr ≤ 0x9FFF then handle_control_register m
          else if addr ≤ 0xBFFF then handle_chr0_register m
          else if addr ≤ 0xDFFF then handle_chr1_register m
          else handle_prg_register m
        { m with shift_register := 0 }
    | (.Partial, m) => m
  else
    { m with cpu_mem := upd m.cpu_mem addr value }

/-- `Mmc1Mapper::get_cpu_dma_slice`. -/
def get_cpu_dma_slice (m : Mmc1Mapper) (addr : Nat) : List Nat :=
  get_slice m.cpu_mem addr 256

/-- `Mmc1Mapper::ppu_read`: a plain byte-array read at the folded
address. -/
def ppu_read (m : Mmc1Mapper) (addr : Nat) : Nat :=
  m.ppu_mem (get_ppu_effective_address addr)

/-- `Mmc1Mapper::ppu_write`: nametable writes are fanned out to the
mirrored addresses; every other address (palette RAM included) is a
plain single-cell byte-array write. -/
def ppu_write (m : Mmc1Mapper) (addr value : Nat) : Mmc1Mapper :=
  let addr := get_ppu_effective_address addr
  if NAMETABLE_0 ≤ addr ∧ addr ≤ NAMETABLE_3_END then
    let mirrored_addresses : List Nat :=
      match m.mirroring with
      | .Horizontal =>
          if (NAMETABLE_0 ≤ addr ∧ addr ≤ NAMETABLE_0_END) ∨
             (NAMETABLE_2 ≤ addr ∧ addr ≤ NAMETABLE_2_END) then [addr + 0x400]
          else [addr - 0x400]
      | .Vertical =>
          if (NAMETABLE_0 ≤ addr ∧ addr ≤ NAMETABLE_0_END) ∨
             (NAMETABLE_1 ≤ addr ∧ addr ≤ NAMETABLE_1_END) then [addr + 0x800]
          else [addr - 0x800]
      | .OneScreen0 | .OneScreen1 =>
          if NAMETABLE_0 ≤ addr ∧ addr ≤ NAMETABLE_0_END then
            [addr + 0x400, addr + 0x800, addr + 0xC00]
          else if NAMETABLE_1 ≤ addr ∧ addr ≤ NAMETABLE_1_END then
            [addr - 0x400, addr + 0x400, addr + 0x800]
          else if NAMETABLE_2 ≤ addr ∧ addr ≤ NAMETABLE_2_END then
            [addr - 0x800, addr - 0x400, addr + 0x400]
          else
            [addr - 0xC00, addr - 0x800, addr - 0x400]
    let mem := upd m.ppu_mem addr value
    { m with ppu_mem := mirrored_addresses.foldl (fun mm a => upd mm a value) mem }
  else
    { m with ppu_mem := upd m.ppu_mem addr value }

end Mmc1Mapper

/-- `Box<dyn Mapper>` specialised to the three mappers the factory
`mappers::get_mapper` can produce. -/
inductive MapperSt
  | nrom : NromMapper → MapperSt
  | mmc1 : Mmc1Mapper → MapperSt
  | unrom : UnromMapper → MapperSt

namespace MapperSt

/-- Dynamic dispatch of `Mapper::cpu_read`. -/
def cpu_read (m : MapperSt) (addr : Nat) : Nat :=
  match m with
  | .nrom x => x.cpu_read addr
  | .mmc1 x => x.cpu_read addr
  | .unrom x => x.cpu_read addr

/-- Dynamic dispatch of `Mapper::cpu_write`. -/
def cpu_write (m : MapperSt) (addr value : Nat) : MapperSt :=
  match m with
  | .nrom x => .nrom (x.cpu_write addr value)
  | .mmc1 x => .mmc1 (x.cpu_write addr value)
  | .unrom x => .unrom (x.cpu_write addr value)

/-- Dynamic dispatch of `Mapper::get_cpu_dma_slice`. -/
def get_cpu_dma_slice (m : MapperSt) (addr : Nat) : List Nat :=
  match m with
  | .nrom x => x.get_cpu_dma_slice addr
  | .mmc1 x => x.get_cpu_dma_slice addr
  | .unrom x => x.get_cpu_dma_slice addr

/-- Dynamic dispatch of `Mapper::ppu_read`. -/
def ppu_read (m : MapperSt) (addr : Nat) : Nat :=
  match m with
  | .nrom x => x.ppu_read addr
  | .mmc1 x => x.ppu_read addr
  | .unrom x => x.ppu_read addr

/-- Dynamic dispatch of `Mapper::ppu_write`. -/
def ppu_write (m : MapperSt) (addr value : Nat) : MapperSt :=
  match m with
  | .nrom x => .nrom (x.ppu_write addr value)
  | .mmc1 x => .mmc1 (x.ppu_write addr value)
  | .unrom x => .unrom (x.ppu_write addr value)

end MapperSt

/-! ### The two $2007 handlers (they straddle the PPU and the mapper) -/

namespace Ppu

/-- `Ppu::write_2007_ppudata`: write through the mapper at v, then
advance v by the VRAM increment (u16 wrap). -/
def write_2007_ppudata (p : Ppu) (value : Nat) (mapper : MapperSt) : Ppu × MapperSt :=
  let mapper := mapper.ppu_write p.reg.v value
  ({ p with reg := { p.reg with v := (p.reg.v + p.reg.ppu_ctrl.vram_increment) % 65536 } }, mapper)

/-- `Ppu::read_2007_ppudata`: palette-range reads bypass the internal
read buffer, everything else is buffered one read behind. -/
def read_2007_ppudata (p : Ppu) (mapper : MapperSt) : Nat × Ppu :=
  if 0x3EFF < p.reg.v then
    let value := mapper.ppu_read p.reg.v
    (value, { p with reg := { p.reg with v := (p.reg.v + p.reg.ppu_ctrl.vram_increment) % 65536 } })
  else
    let value := p.ppudata_read_buffer
    let p := { p with ppudata_read_buffer := mapper.ppu_read p.reg.v }
    (value, { p with reg := { p.reg with v := (p.reg.v + p.reg.ppu_ctrl.vram_increment) % 65536 } })

end Ppu

/-! ## src/state.rs : NesState -/

/-- `state::NesState`: the CPU-bus dispatcher owning the mapper, the PPU
(`Rc<RefCell<Ppu>>` in the source) and the controller latches. -/
structure NesState where
  mapper : MapperSt
  ppu : Ppu
  reload_controller_state : Bool
  controller1_state : Nat
  controller1_register : Nat
  controller1_read_count : Nat
  controller2_state : Nat
  controller2_register : Nat
  controller2_read_count : Nat

namespace NesState

/-- `NesState::get_cpu_effective_address`: fold RAM mirrors onto
$0000-$07FF and PPU register mirrors onto $2000-$2007. -/
def get_cpu_effective_address (addr : Nat) : Nat :=
  if addr ≤ 0x1FFF then addr &&& 0x07FF
  else if addr ≤ 0x3FFF then addr &&& 0x2007
  else addr

/-- `NesState::handle_controller_strobe`: writing bit 0 = 1 keeps
reloading; writing bit 0 = 0 latches both controllers and zeroes both
read counts. -/
def handle_controller_strobe (st : NesState) (value_written : Nat) : NesState :=
  if bit_is_set 0 value_written then
    { st with reload_controller_state := true }
  else
    { st with
      reload_controller_state := false
      controller1_register := st.controller1_state
      controller1_read_count := 0
      controller2_register := st.controller2_state
      controller2_read_count := 0 }

/-- `NesState::read_controller1`: reads one through eight return
`0x40 | LSB` and shift the latch right; later reads return 0x41. -/
def read_controller1 (st : NesState) : Nat × NesState :=
  let st := { st with controller1_read_count := st.controller1_read_count + 1 }
  if 8 < st.controller1_read_count then
    (0x41, st)
  else
    let button_value := st.controller1_register &&& 0x1
    let st := { st with controller1_register := st.controller1_register >>> 1 }
    (0x40 ||| button_value, st)

/-- `NesState::read_controller2`. -/
def read_controller2 (st : NesState) : Nat × NesState :=
  let st := { st with controller2_read_count := st.controller2_read_count + 1 }
  if 8 < st.controller2_read_count then
    (0x41, st)
  else
    let button_value := st.controller2_register &&& 0x1
    let st := { st with controller2_register := st.controller2_register >>> 1 }
    (0x40 ||| button_value, st)

/-- `NesState::cpu_mem_read`. -/
def cpu_mem_read (st : NesState) (addr : Nat) : Nat × NesState :=
  let addr := get_cpu_effective_address addr
  if addr = 0x2002 then
    let (v, ppu) := st.ppu.read_2002_ppustatus
    (v, { st with ppu })
  else if addr = 0x2004 then
    (st.ppu.read_2004_oamdata, st)
  else if addr = 0x2007 then
    let (v, ppu) := st.ppu.read_2007_ppudata st.mapper
    (v, { st with ppu })
  else if addr = 0x4016 then
    read_controller1 st
  else if addr = 0x4017 then
    read_controller2 st
  else
    (st.mapper.cpu_read addr, st)

/--
`NesState::cpu_mem_write`: dispatch a CPU write.  Writes to PPUCTRL,
PPUMASK, PPUSCROLL and PPUADDR are dropped until the CPU cycle counter
exceeds 29658 (`ppu_ready`); $4014 triggers OAM DMA from the mapper's
256-byte slice at `value << 8`; $4016 drives the controller strobe.
-/
def cpu_mem_write (st : NesState) (addr value cycle_count : Nat) : NesState :=
  let addr := get_cpu_effective_address addr
  let ppu_ready := 29658 < cycle_count
  if addr = 0x2000 then
    if ppu_ready then { st with ppu := st.ppu.write_2000_ppuctrl value } else st
  else if addr = 0x2001 then
    if ppu_ready then { st with ppu := st.ppu.write_2001_ppumask value } else st
  else if addr = 0x2003 then
    { st with ppu := st.ppu.write_2003_oamaddr value }
  else if addr = 0x2004 then
    { st with ppu := st.ppu.write_2004_oamdata value }
  else if addr = 0x2005 then
    if ppu_ready then { st with ppu := st.ppu.write_2005_ppuscroll value } else st
  else if addr = 0x2006 then
    if ppu_ready then { st with ppu := st.ppu.write_2006_ppuaddr value } else st
  else if addr = 0x2007 then
    let (ppu, mapper) := st.ppu.write_2007_ppudata value st.mapper
    { st with ppu, mapper }
  else if addr = 0x4014 then
    let dma_start := (value % 256) <<< 8
    let dma_slice := st.mapper.get_cpu_dma_slice dma_start
    { st with ppu := st.ppu.oam_dma dma_slice }
  else if addr = 0x4016 then
    handle_controller_strobe st value
  else
    { st with mapper := st.mapper.cpu_write addr value }

end NesState

/-! ## src/ppu/sprite.rs : SpriteBuffer -/

/-- `sprite::SpriteBgPriority`. -/
inductive SpriteBgPriority
  | InFrontOfBackground | BehindBackground
deriving DecidableEq, Repr

/-- `sprite::SpriteBuffer`: per-sprite render buffer filled during
HBlank. -/
structure SpriteBuffer where
  x_position : Nat
  y_position : Nat
  palette : Nat
  priority : SpriteBgPriority
  is_sprite_0 : Bool
  flip_horizontally : Bool
  flip_vertically : Bool
  pattern_tile_lsb : Nat
  pattern_tile_msb : Nat
deriving DecidableEq, Repr

/-- Rust u8 subtraction: `a - b` panics on underflow in a debug build;
embedded as `none`. -/
def checked_sub_u8 (a b : Nat) : Option Nat :=
  if b ≤ a then some (a - b) else none

namespace SpriteBuffer

/--
`SpriteBuffer::get_palette_value`: select the 2-bit pattern value for
screen column `screen_x`.  The bit index is computed with u8 arithmetic:
`screen_x - x_position` when flipped horizontally, and
`7 - screen_x - x_position` (evaluated left to right) when not; each
subtraction is checked, as in the source it panics on underflow in a
debug build.
-/
def get_palette_value (sb : SpriteBuffer) (screen_x : Nat) : Option Nat :=
  let bit? : Option Nat :=
    if sb.flip_horizontally then
      checked_sub_u8 screen_x sb.x_position
    else
      match checked_sub_u8 7 screen_x with
      | none => none
      | some d => checked_sub_u8 d sb.x_position
  match bit? with
  | none => none
  | some bit =>
      let lsb := if bit_is_set bit sb.pattern_tile_lsb then 1 else 0
      let msb := if bit_is_set bit sb.pattern_tile_msb then 1 else 0
      some ((msb <<< 1) ||| lsb)

end SpriteBuffer

/-! ## Concrete states used to instantiate the claims -/

/-- A CPU about to execute `ADC #$FF` (opcode $69) with A = $80 and the
carry flag set (P = $25). -/
def adc_bug_cpu : Cpu :=
  { reg := { A := 0x80, X := 0, Y := 0, PC := 0, SP := 0xFD, P := 0x25 }
    opcode := 0, operand_address := 0, operand_value := 0
    page_penalty := 0, extra_cycles := 0
    mem := fun a => if a = 0 then 0x69 else if a = 1 then 0xFF else 0 }

/-- A CPU about to execute `BRK` (opcode $00) at PC = $0300 with
P = $20 (the I flag clear) and the IRQ/BRK vector at $FFFE set to
$1234. -/
def brk_cpu : Cpu :=
  { reg := { A := 0, X := 0, Y := 0, PC := 0x0300, SP := 0xFD, P := 0x20 }
    opcode := 0, operand_address := 0, operand_value := 0
    page_penalty := 0, extra_cycles := 0
    mem := fun a =>
      if a = 0x0300 then 0x00
      else if a = 0xFFFE then 0x34
      else if a = 0xFFFF then 0x12
      else 0 }

/-- A CPU about to execute `SLO $10` (opcode $07, zero page, 5 base
cycles) at PC = 0. -/
def slo_cpu : Cpu :=
  { reg := { A := 0x01, X := 0, Y := 0, PC := 0, SP := 0xFD, P := 0x24 }
    opcode := 0, operand_address := 0, operand_value := 0
    page_penalty := 0, extra_cycles := 0
    mem := fun a => if a = 0 then 0x07 else if a = 1 then 0x10 else 0x40 }

/-- Projection of the CPU state reached by `execute` (999 is never a
byte or P value, so a `none` result cannot be confused with success). -/
def exec_A (s : Cpu) : Nat := ((Cpu.execute s).map (fun p => p.1.reg.A)).getD 999

def exec_P (s : Cpu) : Nat := ((Cpu.execute s).map (fun p => p.1.reg.P)).getD 999

def exec_PC (s : Cpu) : Nat := ((Cpu.execute s).map (fun p => p.1.reg.PC)).getD 999999

def exec_SP (s : Cpu) : Nat := ((Cpu.execute s).map (fun p => p.1.reg.SP)).getD 999

def exec_mem (s : Cpu) (a : Nat) : Nat := ((Cpu.execute s).map (fun p => p.1.mem a)).getD 999

def exec_cycles (s : Cpu) : Nat := ((Cpu.execute s).map (fun p => p.2)).getD 999

/-- An all-zero PPU register file (fields as after `Default`). -/
def ppu0 : Ppu :=
  { reg :=
      { ppu_ctrl := PpuCtrl.update 0
        ppu_mask := PpuMask.update 0
        ppu_status := 0
        oam_addr := 0
        v := 0, t := 0, x := 0, w := Toggle.FirstWrite }
    oam := fun _ => 0
    ppudata_read_buffer := 0
    scanline := 0
    scanline_cycle := 0 }

/-- A fresh MMC1 mapper holding vertical mirroring (as a game would have
configured), empty bank lists and zeroed memories. -/
def mmc1_vertical : Mmc1Mapper :=
  { cpu_mem := fun _ => 0
    ppu_mem := fun _ => 0
    mirroring := Mirroring.Vertical
    prg_rom_banks := []
    chr_rom_banks := []
    shift_register := 0
    reg_write_count := 0
    prg_rom_bank_mode := PrgRomBankMode.BankC000Fixed
    chr_rom_bank_mode := ChrRomBankMode.Switch8KB }

/-- A fresh NROM mapper with zeroed memories. -/
def nrom0 : NromMapper :=
  { cpu_mem := fun _ => 0
    ppu_mem :=
      { mem := fun _ => 0, vram_bank0 := fun _ => 0, vram_bank1 := fun _ => 0
        mirroring := Mirroring.Horizontal }
    mirroring := Mirroring.Horizontal
    chr_ram := false }

/-- A fresh UNROM mapper with zeroed memories. -/
def unrom0 : UnromMapper :=
  { cpu_mem := fun _ => 0
    ppu_mem :=
      { mem := fun _ => 0, vram_bank0 := fun _ => 0, vram_bank1 := fun _ => 0
        mirroring := Mirroring.Vertical }
    mirroring := Mirroring.Vertical
    prg_rom_banks := [] }

/-- A NesState around `ppu0` and `nrom0`, with a ramp pattern in CPU
memory and controller 1 latched to $A5 by the host. -/
def nes0 : NesState :=
  { mapper := MapperSt.nrom { nrom0 with cpu_mem := fun a => (a + a / 256) % 256 }
    ppu := { ppu0 with reg := { ppu0.reg with oam_addr := 250 } }
    reload_controller_state := true
    controller1_state := 0xA5
    controller1_register := 0
    controller1_read_count := 0
    controller2_state := 0x5A
    controller2_register := 0
    controller2_read_count := 0 }

/-- A non-flipped sprite buffer at x = 5 (sprite pixels cover screen
columns 5 through 12). -/
def sprite_x5 : SpriteBuffer :=
  { x_position := 5, y_position := 17, palette := 2
    priority := SpriteBgPriority.InFrontOfBackground
    is_sprite_0 := false
    flip_horizontally := false, flip_vertically := false
    pattern_tile_lsb := 0xFF, pattern_tile_msb := 0x0F }

/-- The raw cpu-side byte array owned by a mapper
(`self.cpu_mem` of each of the three mapper structs). -/
def MapperSt.cpu_mem_raw : MapperSt → (Nat → Nat)
  | .nrom x => x.cpu_mem
  | .mmc1 x => x.cpu_mem
  | .unrom x => x.cpu_mem

/-- The executors that net-apply the page penalty once: ADC, SBC, AND,
ORA, EOR, CMP, LDA, LDX, LDY, the undocumented LAX, and NOP (for the
multi-byte undocumented NOPs). -/
def load_arith_class (n : OpName) : Bool :=
  match n with
  | .adc | .sbc | .opAnd | .ora | .eor | .cmp | .lda | .ldx | .ldy | .lax | .nop => true
  | _ => false

/-- The combined undocumented read-modify-write executors that subtract
back (or never add) the helper's page penalty: SLO, RLA, SRE, RRA, ISB,
DCP. -/
def combined_rmw_class (n : OpName) : Bool :=
  match n with
  | .slo | .rla | .sre | .rra | .isb | .dcp => true
  | _ => false

/-- The addressing modes whose decode can raise the page-penalty flag:
ABX, ABY, IZY. -/
def penalty_mode (m : AddrMode) : Bool :=
  match m with
  | .ABX | .ABY | .IZY => true
  | _ => false

/-- The decode prefix of `Cpu::execute`: fetch the opcode, reset the
penalty bookkeeping, and run the addressing mode.  `execute` is exactly
this followed by the executor dispatch. -/
def decode_state (s : Cpu) : Cpu :=
  let (opcode, s) := Cpu.read_byte s
  let s := { s with opcode := opcode }
  let s := { s with page_penalty := 0, extra_cycles := 0 }
  Cpu.set_operand_address (Cpu.op_lookup opcode).addr_mode s

/-- State after `n` consecutive CPU reads of $4016
(`NesState::read_controller1`). -/
def iterate_reads1 (st : NesState) : Nat → NesState
  | 0 => st
  | n + 1 => (NesState.read_controller1 (iterate_reads1 st n)).2

/-- State after `n` consecutive CPU reads of $4017
(`NesState::read_controller2`). -/
def iterate_reads2 (st : NesState) : Nat → NesState
  | 0 => st
  | n + 1 => (NesState.read_controller2 (iterate_reads2 st n)).2

/-! ## Theorems -/

theorem upd_same (m : Nat → Nat) (a v : Nat) : upd m a v a = v := by
  simp [upd]

theorem upd_other (m : Nat → Nat) (a v x : Nat) (h : x ≠ a) :
    upd m a v x = m x := by
  simp [upd, h]

/--
C1.  The accumulator and carry parts of the ADC claim hold on the
exhibited input, but the overflow-flag part does not: executing
`ADC #$FF` with A = $80 and C_in = 1 yields result $80 with C_out set
(so A + m + C_in = $180, matching the claim), yet the code leaves the V
flag SET (final P = $E5, bit 6 set) although the claim's formula
`(A ^ result) & (m ^ result) & 0x80` evaluates to 0 on this input.  The
code ORs the overflow flags of two separate i8 additions, which
misfires when the first addition wraps and the carry wraps the sum back
into range.
-/
theorem C1_adc_overflow_flag_bug :
    exec_A adc_bug_cpu = 0x80 ∧
    bit_is_set PS_C_BIT (exec_P adc_bug_cpu) = true ∧
    bit_is_set PS_V_BIT (exec_P adc_bug_cpu) = true ∧
    ((0x80 ^^^ 0x80) &&& (0xFF ^^^ 0x80) &&& 0x80) = 0 := by
  decide

/--
C2.  Executing BRK at PC = $0300 with P = $20 and vector $FFFE = $1234:
the code does push PC+1 = $0301 high byte first ($01FD := $03,
$01FC := $01), does push P with bits 4 and 5 set ($01FB := $30), and
does load PC from $FFFE (PC' = $1234) -- but instead of setting the I
flag it sets bit 4 (PS_B_BIT) of the live P register: the final P is
$30, whose bit 2 (I) is still clear.  This refutes the claim's "sets the
I flag" clause.
-/
theorem C2_brk_sets_b_instead_of_i :
    exec_mem brk_cpu 0x01FD = 0x03 ∧
    exec_mem brk_cpu 0x01FC = 0x01 ∧
    exec_mem brk_cpu 0x01FB = 0x30 ∧
    exec_PC brk_cpu = 0x1234 ∧
    exec_SP brk_cpu = 0xFA ∧
    exec_P brk_cpu = 0x30 ∧
    bit_is_set PS_I_BIT (exec_P brk_cpu) = false ∧
    bit_is_set PS_B_BIT (exec_P brk_cpu) = true := by
  decide

/--
C8.  The screen column sx = 5 satisfies x ≤ sx ≤ x + 7 for the
non-flipped sprite at x = 5, yet `get_palette_value` evaluates
`7 - screen_x - x_position` left to right in u8 arithmetic:
`(7 - 5) - 5` underflows, which panics in a debug build (embedded as
`none`).  The claim's "no u8 subtraction underflow" is false; the
correct non-flipped offset would be sx - x = 0, i.e. pattern bit 7.
-/
theorem C8_sprite_offset_underflow :
    (sprite_x5.x_position ≤ 5 ∧ 5 ≤ sprite_x5.x_position + 7) ∧
    sprite_x5.flip_horizontally = false ∧
    sprite_x5.get_palette_value 5 = none := by
  decide

/--
C4, counterexample.  The palette-alias invariant fails for the MMC1
mapper: its `ppu_mem` is a plain byte array, so a PPU-bus write of $2A
to $3F00 stores into $3F00 only, and an immediate read of $3F10 still
returns the old byte 0, not $2A.
-/
theorem C4_mmc1_breaks_palette_alias :
    MapperSt.ppu_read (MapperSt.ppu_write (MapperSt.mmc1 mmc1_vertical) 0x3F00 0x2A) 0x3F10
      ≠ 0x2A := by
  decide

/--
C4, amended.  For the NROM and UNROM mappers (whose PPU memory is a
`PpuMemory`), every write W to a palette address p in
{$3F00, $3F04, $3F08, $3F0C} reads back as W from p + $10 and vice
versa, in any mapper state; the MMC1 mapper does not alias.
-/
theorem C4_palette_alias_nrom_unrom :
    ∀ (n : NromMapper) (u : UnromMapper) (p W : Nat),
      p = 0x3F00 ∨ p = 0x3F04 ∨ p = 0x3F08 ∨ p = 0x3F0C →
      (n.ppu_write p W).ppu_read (p + 0x10) = W ∧
      (n.ppu_write (p + 0x10) W).ppu_read p = W ∧
      (u.ppu_write p W).ppu_read (p + 0x10) = W ∧
      (u.ppu_write (p + 0x10) W).ppu_read p = W := by
  intro n u p W hp
  rcases hp with h | h | h | h <;> subst h <;>
    simp [NromMapper.ppu_write, NromMapper.ppu_read, UnromMapper.ppu_write,
      UnromMapper.ppu_read, PpuMemory.write, PpuMemory.read,
      PpuMemory.get_effective_address, PpuMemory.read_nametable,
      NAMETABLE_0, NAMETABLE_1, NAMETABLE_2, NAMETABLE_3,
      NAMETABLE_0_END, NAMETABLE_1_END, NAMETABLE_2_END, NAMETABLE_3_END,
      upd]

theorem C4_palette_alias_nrom_unrom_witness :
    (0x3F04 = 0x3F00 ∨ 0x3F04 = 0x3F04 ∨ 0x3F04 = 0x3F08 ∨ 0x3F04 = 0x3F0C) ∧
    ((nrom0.ppu_write 0x3F04 0x2A).ppu_read 0x3F14 = 0x2A ∧
     (nrom0.ppu_write 0x3F14 0x2A).ppu_read 0x3F04 = 0x2A ∧
     (unrom0.ppu_write 0x3F04 0x2A).ppu_read 0x3F14 = 0x2A ∧
     (unrom0.ppu_write 0x3F14 0x2A).ppu_read 0x3F04 = 0x2A) :=
  ⟨by decide, C4_palette_alias_nrom_unrom nrom0 unrom0 0x3F04 0x2A (by decide)⟩

/--
C5, counterexample.  A CPU write of $80 (bit 7 set) at $8000 resets the
MMC1 control state by reparsing a literal 0x0C: mirroring mode bits are
NOT preserved -- a mapper in Vertical mirroring ends up in OneScreen0.
-/
theorem C5_reset_write_clobbers_mirroring :
    mmc1_vertical.mirroring = Mirroring.Vertical ∧
    (mmc1_vertical.cpu_write 0x8000 0x80).mirroring = Mirroring.OneScreen0 ∧
    Mirroring.OneScreen0 ≠ Mirroring.Vertical := by
  refine ⟨rfl, ?_, by decide⟩
  rfl

/--
C5, amended.  A CPU write in $8000-$FFFF with bit 7 set clears the
5-bit shift register and its write count and re-parses the control
state as if the control register were exactly $0C: PRG banking mode
becomes "16 KiB bank at $C000 fixed", CHR mode becomes 8 KiB, and the
mirroring mode becomes OneScreen0 regardless of its previous value
(the control value is overwritten, not OR'd with $0C).
-/
theorem C5_reset_write_amended :
    ∀ (m : Mmc1Mapper) (addr value : Nat),
      0x8000 ≤ addr → bit_is_set 7 value = true →
      (m.cpu_write addr value).shift_register = 0 ∧
      (m.cpu_write addr value).reg_write_count = 0 ∧
      (m.cpu_write addr value).prg_rom_bank_mode = PrgRomBankMode.BankC000Fixed ∧
      (m.cpu_write addr value).chr_rom_bank_mode = ChrRomBankMode.Switch8KB ∧
      (m.cpu_write addr value).mirroring = Mirroring.OneScreen0 := by
  intro m addr value ha hv
  simp [Mmc1Mapper.cpu_write, ha, Mmc1Mapper.push_shift_reg, hv,
    Mmc1Mapper.reset, Mmc1Mapper.handle_control_register,
    Mmc1Mapper.mirror_nametables,
    show ((12 : Nat) &&& 3) = 0 from rfl,
    show (((12 : Nat) >>> 2) &&& 3) = 3 from rfl,
    show (((12 : Nat) >>> 4) &&& 1) = 0 from rfl]

theorem C5_reset_write_amended_witness :
    (0x8000 ≤ 0x9000 ∧ bit_is_set 7 0x90 = true) ∧
    ((mmc1_vertical.cpu_write 0x9000 0x90).shift_register = 0 ∧
     (mmc1_vertical.cpu_write 0x9000 0x90).reg_write_count = 0 ∧
     (mmc1_vertical.cpu_write 0x9000 0x90).prg_rom_bank_mode = PrgRomBankMode.BankC000Fixed ∧
     (mmc1_vertical.cpu_write 0x9000 0x90).chr_rom_bank_mode = ChrRomBankMode.Switch8KB ∧
     (mmc1_vertical.cpu_write 0x9000 0x90).mirroring = Mirroring.OneScreen0) :=
  ⟨by decide, C5_reset_write_amended mmc1_vertical 0x9000 0x90 (by decide) (by decide)⟩

/-- Bit-level identity behind the $2006 write pair: loading the masked
high byte into t, then the low byte, then mirroring below $4000 yields
exactly `((h & 0x3F) << 8) | l`. -/
theorem testBit_255 (i : Nat) : Nat.testBit 255 i = decide (i < 8) := by
  have h8 : (255 : Nat) = 2 ^ 8 - 1 := rfl
  rw [h8, Nat.testBit_two_pow_sub_one]

theorem testBit_63 (i : Nat) : Nat.testBit 63 i = decide (i < 6) := by
  have h6 : (63 : Nat) = 2 ^ 6 - 1 := rfl
  rw [h6, Nat.testBit_two_pow_sub_one]

theorem testBit_16383 (i : Nat) : Nat.testBit 16383 i = decide (i < 14) := by
  have h14 : (16383 : Nat) = 2 ^ 14 - 1 := rfl
  rw [h14, Nat.testBit_two_pow_sub_one]

theorem testBit_65280 (i : Nat) :
    Nat.testBit 65280 i = (decide (8 ≤ i) && decide (i - 8 < 8)) := by
  have hs : (65280 : Nat) = 255 <<< 8 := rfl
  rw [hs, Nat.testBit_shiftLeft, testBit_255]

theorem ppuaddr_bit_identity (t h l : Nat) (hl : l < 256) :
    ((((t &&& (65535 ^^^ 0xFF00)) ||| (((h &&& 0x3F) <<< 8) &&& 0xFF00)) &&&
        (65535 ^^^ 0xFF)) ||| (l &&& 0xFF)) &&& 0x3FFF
      = ((h &&& 0x3F) <<< 8) ||| l := by
  apply Nat.eq_of_testBit_eq
  intro i
  have hlb : ∀ j, 8 ≤ j → l.testBit j = false := by
    intro j hj
    apply Nat.testBit_lt_two_pow
    have hp : (2 : Nat) ^ 8 ≤ 2 ^ j := Nat.pow_le_pow_right (by norm_num) hj
    omega
  rcases Nat.lt_or_ge i 16 with h16 | h16
  · interval_cases i <;>
      simp [Nat.testBit_or, Nat.testBit_and, Nat.testBit_shiftLeft, hlb,
        testBit_255, testBit_63, testBit_16383, testBit_65280]
  · have hp : (2 : Nat) ^ 16 ≤ 2 ^ i := Nat.pow_le_pow_right (by norm_num) h16
    have h1 : (((((t &&& (65535 ^^^ 0xFF00)) ||| (((h &&& 0x3F) <<< 8) &&& 0xFF00)) &&&
        (65535 ^^^ 0xFF)) ||| (l &&& 0xFF)) &&& 0x3FFF) < 2 ^ i := by
      have hle : (((((t &&& (65535 ^^^ 0xFF00)) ||| (((h &&& 0x3F) <<< 8) &&& 0xFF00)) &&&
          (65535 ^^^ 0xFF)) ||| (l &&& 0xFF)) &&& 0x3FFF) ≤ 0x3FFF := Nat.and_le_right
      omega
    have h2 : (((h &&& 0x3F) <<< 8) ||| l) < 2 ^ i := by
      have ha : h &&& 0x3F ≤ 0x3F := Nat.and_le_right
      have hsh : (h &&& 0x3F) <<< 8 = (h &&& 0x3F) * 256 := Nat.shiftLeft_eq _ 8
      have hor : ((h &&& 0x3F) <<< 8) ||| l < 2 ^ 16 :=
        Nat.or_lt_two_pow (by omega) (by omega)
      omega
    rw [Nat.testBit_lt_two_pow h1, Nat.testBit_lt_two_pow h2]

/--
C7.  Starting with the write toggle at FirstWrite (w = 0), two CPU
writes to $2006 of h then l leave v = ((h & 0x3F) << 8) | l, with
t equal to v and the toggle back at FirstWrite.
-/
theorem C7_ppuaddr_double_write :
    ∀ (p : Ppu) (h l : Nat), l < 256 → p.reg.w = Toggle.FirstWrite →
      ((p.write_2006_ppuaddr h).write_2006_ppuaddr l).reg.v = ((h &&& 0x3F) <<< 8) ||| l ∧
      ((p.write_2006_ppuaddr h).write_2006_ppuaddr l).reg.t
        = ((p.write_2006_ppuaddr h).write_2006_ppuaddr l).reg.v ∧
      ((p.write_2006_ppuaddr h).write_2006_ppuaddr l).reg.w = Toggle.FirstWrite := by
  intro p h l hl hw
  simp [Ppu.write_2006_ppuaddr, hw, Toggle.tog, set_bits_from_mask_u16]
  exact ppuaddr_bit_identity p.reg.t h l hl

theorem C7_ppuaddr_double_write_witness :
    (0x34 < 256 ∧ ppu0.reg.w = Toggle.FirstWrite) ∧
    (((ppu0.write_2006_ppuaddr 0x21).write_2006_ppuaddr 0x34).reg.v
        = ((0x21 &&& 0x3F) <<< 8) ||| 0x34 ∧
     ((ppu0.write_2006_ppuaddr 0x21).write_2006_ppuaddr 0x34).reg.t
        = ((ppu0.write_2006_ppuaddr 0x21).write_2006_ppuaddr 0x34).reg.v ∧
     ((ppu0.write_2006_ppuaddr 0x21).write_2006_ppuaddr 0x34).reg.w = Toggle.FirstWrite) :=
  ⟨⟨by decide, by decide⟩, C7_ppuaddr_double_write ppu0 0x21 0x34 (by decide) (by decide)⟩

/-- Read count after n controller-1 reads: the counter increments on
every read. -/
theorem iterate_reads1_count (st : NesState) :
    ∀ n, (iterate_reads1 st n).controller1_read_count = st.controller1_read_count + n := by
  intro n
  induction n with
  | zero => rfl
  | succ k ih =>
      simp only [iterate_reads1, NesState.read_controller1]
      split <;> simp [ih] <;> omega

/-- Latch contents after n controller-1 reads, while within the first
eight reads: the latch has shifted right n times. -/
theorem iterate_reads1_register (st : NesState) (h0 : st.controller1_read_count = 0) :
    ∀ n, n ≤ 8 → (iterate_reads1 st n).controller1_register = st.controller1_register >>> n := by
  intro n
  induction n with
  | zero => intro _; rfl
  | succ k ih =>
      intro hk
      have hcnt := iterate_reads1_count st k
      simp only [iterate_reads1, NesState.read_controller1]
      have hno : ¬ (8 < (iterate_reads1 st k).controller1_read_count + 1) := by omega
      simp [hno, ih (by omega), Nat.shiftRight_add]

theorem iterate_reads2_count (st : NesState) :
    ∀ n, (iterate_reads2 st n).controller2_read_count = st.controller2_read_count + n := by
  intro n
  induction n with
  | zero => rfl
  | succ k ih =>
      simp only [iterate_reads2, NesState.read_controller2]
      split <;> simp [ih] <;> omega

theorem iterate_reads2_register (st : NesState) (h0 : st.controller2_read_count = 0) :
    ∀ n, n ≤ 8 → (iterate_reads2 st n).controller2_register = st.controller2_register >>> n := by
  intro n
  induction n with
  | zero => intro _; rfl
  | succ k ih =>
      intro hk
      have hcnt := iterate_reads2_count st k
      simp only [iterate_reads2, NesState.read_controller2]
      have hno : ¬ (8 < (iterate_reads2 st k).controller2_read_count + 1) := by omega
      simp [hno, ih (by omega), Nat.shiftRight_add]

/--
C9.  After a strobe-low write to $4016 (bit 0 clear), the n-th
subsequent read of $4016 (n counted from 1, embedded as n-1 prior
reads) returns 0x40 OR the n-th-lowest bit of controller 1's latched
state and shifts the latch; from the ninth read onward every read
returns 0x41.  The same holds for $4017 and controller 2, and the
$4016 / $4017 read ports dispatch to exactly these two functions.
-/
theorem C9_controller_shift_reads :
    ∀ (st : NesState) (v n : Nat), bit_is_set 0 v = false →
      (n < 8 →
        (NesState.read_controller1 (iterate_reads1 (st.handle_controller_strobe v) n)).1
          = 0x40 ||| ((st.controller1_state >>> n) &&& 1) ∧
        (NesState.read_controller2 (iterate_reads2 (st.handle_controller_strobe v) n)).1
          = 0x40 ||| ((st.controller2_state >>> n) &&& 1)) ∧
      (8 ≤ n →
        (NesState.read_controller1 (iterate_reads1 (st.handle_controller_strobe v) n)).1
          = 0x41 ∧
        (NesState.read_controller2 (iterate_reads2 (st.handle_controller_strobe v) n)).1
          = 0x41) ∧
      (st.cpu_mem_read 0x4016 = st.read_controller1 ∧
       st.cpu_mem_read 0x4017 = st.read_controller2) := by
  intro st v n hv
  have h01 : (st.handle_controller_strobe v).controller1_read_count = 0 := by
    simp [NesState.handle_controller_strobe, hv]
  have h02 : (st.handle_controller_strobe v).controller2_read_count = 0 := by
    simp [NesState.handle_controller_strobe, hv]
  have hreg1 : (st.handle_controller_strobe v).controller1_register = st.controller1_state := by
    simp [NesState.handle_controller_strobe, hv]
  have hreg2 : (st.handle_controller_strobe v).controller2_register = st.controller2_state := by
    simp [NesState.handle_controller_strobe, hv]
  have hc1 := iterate_reads1_count (st.handle_controller_strobe v) n
  have hc2 := iterate_reads2_count (st.handle_controller_strobe v) n
  rw [h01] at hc1
  rw [h02] at hc2
  refine ⟨?_, ?_, ?_, ?_⟩
  · intro hn
    have hr1 := iterate_reads1_register (st.handle_controller_strobe v) h01 n (by omega)
    have hr2 := iterate_reads2_register (st.handle_controller_strobe v) h02 n (by omega)
    rw [hreg1] at hr1
    rw [hreg2] at hr2
    have hno1 : ¬ (8 < (iterate_reads1 (st.handle_controller_strobe v) n).controller1_read_count + 1) := by
      omega
    have hno2 : ¬ (8 < (iterate_reads2 (st.handle_controller_strobe v) n).controller2_read_count + 1) := by
      omega
    exact ⟨by simp [NesState.read_controller1, hno1, hr1],
      by simp [NesState.read_controller2, hno2, hr2]⟩
  · intro hn
    have hyes1 : 8 < (iterate_reads1 (st.handle_controller_strobe v) n).controller1_read_count + 1 := by
      omega
    have hyes2 : 8 < (iterate_reads2 (st.handle_controller_strobe v) n).controller2_read_count + 1 := by
      omega
    exact ⟨by simp [NesState.read_controller1, hyes1],
      by simp [NesState.read_controller2, hyes2]⟩
  · simp [NesState.cpu_mem_read, NesState.get_cpu_effective_address]
  · simp [NesState.cpu_mem_read, NesState.get_cpu_effective_address]

theorem C9_controller_shift_reads_witness :
    bit_is_set 0 0 = false ∧
    ((2 < 8 →
      (NesState.read_controller1 (iterate_reads1 (nes0.handle_controller_strobe 0) 2)).1
        = 0x40 ||| ((nes0.controller1_state >>> 2) &&& 1) ∧
      (NesState.read_controller2 (iterate_reads2 (nes0.handle_controller_strobe 0) 2)).1
        = 0x40 ||| ((nes0.controller2_state >>> 2) &&& 1)) ∧
     (8 ≤ 2 →
      (NesState.read_controller1 (iterate_reads1 (nes0.handle_controller_strobe 0) 2)).1
        = 0x41 ∧
      (NesState.read_controller2 (iterate_reads2 (nes0.handle_controller_strobe 0) 2)).1
        = 0x41) ∧
     (nes0.cpu_mem_read 0x4016 = nes0.read_controller1 ∧
      nes0.cpu_mem_read 0x4017 = nes0.read_controller2)) :=
  ⟨by decide, C9_controller_shift_reads nes0 0 2 (by decide)⟩

/--
C10.  Any CPU write to PPUCTRL ($2000), PPUMASK ($2001), PPUSCROLL
($2005) or PPUADDR ($2006) issued at a cycle count of 29658 or below is
silently discarded (the whole NesState, hence every PPU register
including t, x, w and the parsed fields, is unchanged), while writes to
$2003, $2004, $2007 and $4014 are dispatched identically at every cycle
count.
-/
theorem C10_ppu_warmup_gate :
    ∀ (st : NesState) (v cyc cyc' : Nat), cyc ≤ 29658 →
      (st.cpu_mem_write 0x2000 v cyc = st ∧
       st.cpu_mem_write 0x2001 v cyc = st ∧
       st.cpu_mem_write 0x2005 v cyc = st ∧
       st.cpu_mem_write 0x2006 v cyc = st) ∧
      (st.cpu_mem_write 0x2003 v cyc = st.cpu_mem_write 0x2003 v cyc' ∧
       st.cpu_mem_write 0x2004 v cyc = st.cpu_mem_write 0x2004 v cyc' ∧
       st.cpu_mem_write 0x2007 v cyc = st.cpu_mem_write 0x2007 v cyc' ∧
       st.cpu_mem_write 0x4014 v cyc = st.cpu_mem_write 0x4014 v cyc') := by
  intro st v cyc cyc' h
  have hng : ¬ (29658 < cyc) := by omega
  refine ⟨⟨?_, ?_, ?_, ?_⟩, ?_, ?_, ?_, ?_⟩ <;>
    simp [NesState.cpu_mem_write, NesState.get_cpu_effective_address, hng,
      show ((0x2000 : Nat) &&& 0x2007) = 0x2000 from rfl,
      show ((0x2001 : Nat) &&& 0x2007) = 0x2001 from rfl,
      show ((0x2003 : Nat) &&& 0x2007) = 0x2003 from rfl,
      show ((0x2004 : Nat) &&& 0x2007) = 0x2004 from rfl,
      show ((0x2005 : Nat) &&& 0x2007) = 0x2005 from rfl,
      show ((0x2006 : Nat) &&& 0x2007) = 0x2006 from rfl,
      show ((0x2007 : Nat) &&& 0x2007) = 0x2007 from rfl]

theorem C10_ppu_warmup_gate_witness :
    100 ≤ 29658 ∧
    ((nes0.cpu_mem_write 0x2000 0x91 100 = nes0 ∧
      nes0.cpu_mem_write 0x2001 0x91 100 = nes0 ∧
      nes0.cpu_mem_write 0x2005 0x91 100 = nes0 ∧
      nes0.cpu_mem_write 0x2006 0x91 100 = nes0) ∧
     (nes0.cpu_mem_write 0x2003 0x91 100 = nes0.cpu_mem_write 0x2003 0x91 40000 ∧
      nes0.cpu_mem_write 0x2004 0x91 100 = nes0.cpu_mem_write 0x2004 0x91 40000 ∧
      nes0.cpu_mem_write 0x2007 0x91 100 = nes0.cpu_mem_write 0x2007 0x91 40000 ∧
      nes0.cpu_mem_write 0x4014 0x91 100 = nes0.cpu_mem_write 0x4014 0x91 40000)) :=
  ⟨by decide, C10_ppu_warmup_gate nes0 0x91 100 40000 (by decide)⟩

/-- Adding k ∈ (0, len) to a cell index below len changes it mod len. -/
theorem add_mod_ne_self (len addr k : Nat) (ha : addr < len) (hk1 : 0 < k) (hk2 : k < len) :
    (addr + k) % len ≠ addr := by
  rcases Nat.lt_or_ge (addr + k) len with hlt | hge
  · rw [Nat.mod_eq_of_lt hlt]
    omega
  · have hsub : (addr + k) % len = addr + k - len := by
      rw [Nat.mod_eq_sub_mod hge, Nat.mod_eq_of_lt (by omega)]
    omega

/-- `wrapping_load` leaves untouched every cell it does not write. -/
theorem wrapping_load_untouched :
    ∀ (data : List Nat) (m : Nat → Nat) (len addr a : Nat), addr < len →
      (∀ j, j < data.length → (addr + j) % len ≠ a) →
      wrapping_load m len addr data a = m a := by
  intro data
  induction data with
  | nil => intro m len addr a _ _; rfl
  | cons v rest ih =>
      intro m len addr a ha hj
      have hlen : 0 < len := by omega
      have hnext : (if addr + 1 = len then 0 else addr + 1) = (addr + 1) % len := by
        rcases Nat.lt_or_ge (addr + 1) len with hlt | hge
        · rw [if_neg (by omega), Nat.mod_eq_of_lt hlt]
        · have : addr + 1 = len := by omega
          simp [this]
      have hrec := ih (upd m addr v) len ((addr + 1) % len) a
        (Nat.mod_lt _ hlen)
        (fun j hjr => by
          rw [Nat.mod_add_mod]
          have := hj (j + 1) (by simpa using Nat.succ_lt_succ hjr)
          simpa [Nat.add_assoc, Nat.add_comm 1 j] using this)
      have ha0 := hj 0 (by simp)
      rw [Nat.add_zero, Nat.mod_eq_of_lt ha] at ha0
      calc wrapping_load m len addr (v :: rest) a
          = wrapping_load (upd m addr v) len ((addr + 1) % len) rest a := by
            rw [wrapping_load, hnext]
        _ = upd m addr v a := hrec
        _ = m a := upd_other m addr v a (by omega)

/-- The cell `(addr + i) % len` holds `data[i]` after `wrapping_load`,
provided the data fits in the wrapped buffer. -/
theorem wrapping_load_spec :
    ∀ (data : List Nat) (m : Nat → Nat) (len addr i : Nat),
      addr < len → data.length ≤ len → i < data.length →
      wrapping_load m len addr data ((addr + i) % len) = data.getD i 0 := by
  intro data
  induction data with
  | nil => intro m len addr i _ _ hi; simp at hi
  | cons v rest ih =>
      intro m len addr i ha hfit hi
      have hlen : 0 < len := by omega
      have hnext : (if addr + 1 = len then 0 else addr + 1) = (addr + 1) % len := by
        rcases Nat.lt_or_ge (addr + 1) len with hlt | hge
        · rw [if_neg (by omega), Nat.mod_eq_of_lt hlt]
        · have : addr + 1 = len := by omega
          simp [this]
      match i with
      | 0 =>
          have huntouched := wrapping_load_untouched rest (upd m addr v) len
            ((addr + 1) % len) addr (Nat.mod_lt _ hlen)
            (fun j hjr => by
              rw [Nat.mod_add_mod]
              have : addr + 1 + j = addr + (1 + j) := by omega
              rw [this]
              exact add_mod_ne_self len addr (1 + j) ha (by omega)
                (by simp at hfit; omega))
          have hq0 : (addr + 0) % len = addr := by
            rw [Nat.add_zero, Nat.mod_eq_of_lt ha]
          calc wrapping_load m len addr (v :: rest) ((addr + 0) % len)
              = wrapping_load (upd m addr v) len ((addr + 1) % len) rest addr := by
                rw [hq0, wrapping_load, hnext]
            _ = upd m addr v addr := huntouched
            _ = v := upd_same m addr v
      | i' + 1 =>
          have hq : (addr + (i' + 1)) % len = ((addr + 1) % len + i') % len := by
            rw [Nat.mod_add_mod]
            congr 1
            omega
          have hrest : rest.length ≤ len := by simp at hfit; omega
          calc wrapping_load m len addr (v :: rest) ((addr + (i' + 1)) % len)
              = wrapping_load (upd m addr v) len ((addr + 1) % len) rest
                  (((addr + 1) % len + i') % len) := by
                rw [wrapping_load, hnext, hq]
            _ = rest.getD i' 0 := ih (upd m addr v) len ((addr + 1) % len) i'
                  (Nat.mod_lt _ hlen) hrest (by simpa using hi)
            _ = (v :: rest).getD (i' + 1) 0 := rfl

/-- `get_slice` denotes the mapper memory pointwise. -/
theorem get_slice_getD (m : Nat → Nat) (a n i : Nat) (h : i < n) :
    (get_slice m a n).getD i 0 = m (a + i) := by
  simp [get_slice, List.getD_eq_getElem?_getD, List.getElem?_map, List.getElem?_range, h]

/--
C3.  A CPU write of H to $4014: (first conjunct) `Cpu::do_mem_write`
charges 513 extra cycles, which is one of the two admissible counts
{513, 514}; (second conjunct) the bus dispatcher copies the 256 bytes
of mapper CPU memory at $HH00-$HHFF into OAM starting at OAMADDR and
wrapping around the 256-byte OAM, and leaves OAMADDR itself unchanged.
-/
theorem C3_oam_dma :
    (∀ (s : Cpu) (value : Nat),
        ∃ k, (k = 513 ∨ k = 514) ∧
          (Cpu.do_mem_write s 0x4014 value).extra_cycles = s.extra_cycles + k) ∧
    (∀ (st : NesState) (H cyc i : Nat), H < 256 → i < 256 → st.ppu.reg.oam_addr < 256 →
        (st.cpu_mem_write 0x4014 H cyc).ppu.oam ((st.ppu.reg.oam_addr + i) % 256)
          = st.mapper.cpu_mem_raw (H * 256 + i) ∧
        (st.cpu_mem_write 0x4014 H cyc).ppu.reg.oam_addr = st.ppu.reg.oam_addr) := by
  constructor
  · intro s value
    exact ⟨513, Or.inl rfl, by simp [Cpu.do_mem_write]⟩
  · intro st H cyc i hH hi ha
    have hH8 : (H % 256) <<< 8 = H * 256 := by
      rw [Nat.mod_eq_of_lt hH, Nat.shiftLeft_eq]
    have hslice : st.mapper.get_cpu_dma_slice ((H % 256) <<< 8)
        = get_slice st.mapper.cpu_mem_raw (H * 256) 256 := by
      cases st.mapper <;>
        simp [MapperSt.get_cpu_dma_slice, MapperSt.cpu_mem_raw, hH8,
          NromMapper.get_cpu_dma_slice, Mmc1Mapper.get_cpu_dma_slice,
          UnromMapper.get_cpu_dma_slice]
    have hwrite : st.cpu_mem_write 0x4014 H cyc
        = { st with ppu := st.ppu.oam_dma (st.mapper.get_cpu_dma_slice ((H % 256) <<< 8)) } := by
      simp [NesState.cpu_mem_write, NesState.get_cpu_effective_address]
    rw [hwrite, hslice]
    have hlen : (get_slice st.mapper.cpu_mem_raw (H * 256) 256).length = 256 := by
      simp [get_slice]
    constructor
    · have h1 : ({ st with
          ppu := st.ppu.oam_dma (get_slice st.mapper.cpu_mem_raw (H * 256) 256) } :
            NesState).ppu.oam
          = wrapping_load st.ppu.oam 256 st.ppu.reg.oam_addr
              (get_slice st.mapper.cpu_mem_raw (H * 256) 256) := by
        simp [Ppu.oam_dma, OAM_SIZE, Nat.mod_eq_of_lt ha]
      rw [h1, wrapping_load_spec _ _ _ _ _ ha (le_of_eq hlen) (by rw [hlen]; exact hi)]
      exact get_slice_getD _ _ _ _ hi
    · rfl

theorem C3_oam_dma_witness :
    (2 < 256 ∧ 10 < 256 ∧ nes0.ppu.reg.oam_addr < 256) ∧
    ((nes0.cpu_mem_write 0x4014 2 0).ppu.oam ((nes0.ppu.reg.oam_addr + 10) % 256)
        = nes0.mapper.cpu_mem_raw (2 * 256 + 10) ∧
     (nes0.cpu_mem_write 0x4014 2 0).ppu.reg.oam_addr = nes0.ppu.reg.oam_addr) :=
  ⟨⟨by decide, by decide, by decide⟩,
    C3_oam_dma.2 nes0 2 0 10 (by decide) (by decide) (by decide)⟩

namespace Cpu

theorem fetch_operand_extra_cycles (s : Cpu) :
    (fetch_operand s).extra_cycles = s.extra_cycles := by
  cases h : (op_lookup s.opcode).addr_mode <;> simp [fetch_operand, h]

theorem fetch_operand_page_penalty (s : Cpu) :
    (fetch_operand s).page_penalty = s.page_penalty := by
  cases h : (op_lookup s.opcode).addr_mode <;> simp [fetch_operand, h]

theorem fetch_operand_operand_address (s : Cpu) :
    (fetch_operand s).operand_address = s.operand_address := by
  cases h : (op_lookup s.opcode).addr_mode <;> simp [fetch_operand, h]

theorem fetch_operand_opcode (s : Cpu) :
    (fetch_operand s).opcode = s.opcode := by
  cases h : (op_lookup s.opcode).addr_mode <;> simp [fetch_operand, h]

theorem fetch_operand_set_pp (s : Cpu) (q : Nat) :
    fetch_operand { s with page_penalty := q } = { fetch_operand s with page_penalty := q } := by
  cases h : (op_lookup s.opcode).addr_mode <;> simp [fetch_operand, h, do_mem_read]

theorem update_z_flag_eq (x : Nat) (s : Cpu) :
    update_z_flag x s = { s with reg := { s.reg with P :=
      (if x = 0 then set_bit PS_Z_BIT s.reg.P else clear_bit PS_Z_BIT s.reg.P) } } := by
  cases x <;> simp [update_z_flag]

theorem do_mem_write_eq (s : Cpu) (a v : Nat) :
    do_mem_write s a v = { s with mem := upd s.mem a v, extra_cycles :=
      (if a = 0x4014 then s.extra_cycles + 513 else s.extra_cycles) } := by
  simp only [do_mem_write]
  split <;> simp

theorem ite_c_flag_eq (c : Prop) [Decidable c] (s : Cpu) :
    (if c then set_c_flag s else clear_c_flag s)
      = { s with reg := { s.reg with P :=
          (if c then set_bit PS_C_BIT s.reg.P else clear_bit PS_C_BIT s.reg.P) } } := by
  split <;> simp [set_c_flag, clear_c_flag]

theorem ite_c_flag_eq_flip (c : Prop) [Decidable c] (s : Cpu) :
    (if c then clear_c_flag s else set_c_flag s)
      = { s with reg := { s.reg with P :=
          (if c then clear_bit PS_C_BIT s.reg.P else set_bit PS_C_BIT s.reg.P) } } := by
  split <;> simp [set_c_flag, clear_c_flag]

theorem ite_v_flag_eq (c : Prop) [Decidable c] (s : Cpu) :
    (if c then set_v_flag s else clear_v_flag s)
      = { s with reg := { s.reg with P :=
          (if c then set_bit PS_V_BIT s.reg.P else clear_bit PS_V_BIT s.reg.P) } } := by
  split <;> simp [set_v_flag, clear_v_flag]

theorem ite_z_bit_eq (c : Prop) [Decidable c] (s : Cpu) :
    (if c then { s with reg := { s.reg with P := set_bit PS_Z_BIT s.reg.P } }
     else { s with reg := { s.reg with P := clear_bit PS_Z_BIT s.reg.P } })
      = { s with reg := { s.reg with P :=
          (if c then set_bit PS_Z_BIT s.reg.P else clear_bit PS_Z_BIT s.reg.P) } } := by
  split <;> simp

theorem branch_if_set_eq (b : Nat) (s : Cpu) :
    branch_if_set b s =
      if bit_is_set b s.reg.P then
        { s with
          extra_cycles := (s.extra_cycles + 1 +
            (if !same_page (get_branch_destination s) s.reg.PC then 1 else 0))
          reg := { s.reg with PC := get_branch_destination s } }
      else s := by
  simp only [branch_if_set]
  split
  · split <;> split <;> simp_all [get_branch_destination]
  · rfl

theorem branch_if_clear_eq (b : Nat) (s : Cpu) :
    branch_if_clear b s =
      if !bit_is_set b s.reg.P then
        { s with
          extra_cycles := (s.extra_cycles + 1 +
            (if !same_page (get_branch_destination s) s.reg.PC then 1 else 0))
          reg := { s.reg with PC := get_branch_destination s } }
      else s := by
  simp only [branch_if_clear]
  split
  · split <;> split <;> simp_all [get_branch_destination]
  · rfl

/-- The simp set that normalises every instruction body into a single
record literal with field-level ites. -/
theorem do_comparison_eq (register mem_value : Nat) (s : Cpu) :
    do_comparison register mem_value s = { s with reg := { s.reg with P :=
      (set_bit_from PS_N_BIT ((register % 256 + 256 - mem_value % 256) % 256)
        (if register % 256 = mem_value % 256
          then set_bit PS_Z_BIT
            (if register % 256 ≥ mem_value % 256 then set_bit PS_C_BIT s.reg.P
             else clear_bit PS_C_BIT s.reg.P)
          else clear_bit PS_Z_BIT
            (if register % 256 ≥ mem_value % 256 then set_bit PS_C_BIT s.reg.P
             else clear_bit PS_C_BIT s.reg.P))) } } := by
  simp only [do_comparison, ite_c_flag_eq]
  split <;> split <;> simp

theorem instr_adc_extra (s : Cpu) :
    (instr_adc s).extra_cycles = s.extra_cycles + s.page_penalty := by
  simp [instr_adc, update_nz_flags, update_n_flag, update_z_flag_eq, ite_c_flag_eq, ite_v_flag_eq, apply_page_penalty, fetch_operand_extra_cycles, fetch_operand_page_penalty, fetch_operand_opcode, fetch_operand_operand_address]

theorem instr_sbc_extra (s : Cpu) :
    (instr_sbc s).extra_cycles = s.extra_cycles + s.page_penalty := by
  simp [instr_sbc, update_nz_flags, update_n_flag, update_z_flag_eq, ite_c_flag_eq_flip, ite_v_flag_eq, apply_page_penalty, fetch_operand_extra_cycles, fetch_operand_page_penalty, fetch_operand_opcode, fetch_operand_operand_address]

theorem instr_and_extra (s : Cpu) :
    (instr_and s).extra_cycles = s.extra_cycles + s.page_penalty := by
  simp [instr_and, update_nz_flags, update_n_flag, update_z_flag_eq, apply_page_penalty, fetch_operand_extra_cycles, fetch_operand_page_penalty, fetch_operand_opcode, fetch_operand_operand_address]

theorem instr_ora_extra (s : Cpu) :
    (instr_ora s).extra_cycles = s.extra_cycles + s.page_penalty := by
  simp [instr_ora, update_nz_flags, update_n_flag, update_z_flag_eq, apply_page_penalty, fetch_operand_extra_cycles, fetch_operand_page_penalty, fetch_operand_opcode, fetch_operand_operand_address]

theorem instr_eor_extra (s : Cpu) :
    (instr_eor s).extra_cycles = s.extra_cycles + s.page_penalty := by
  simp [instr_eor, update_nz_flags, update_n_flag, update_z_flag_eq, apply_page_penalty, fetch_operand_extra_cycles, fetch_operand_page_penalty, fetch_operand_opcode, fetch_operand_operand_address]

theorem instr_lda_extra (s : Cpu) :
    (instr_lda s).extra_cycles = s.extra_cycles + s.page_penalty := by
  simp [instr_lda, update_nz_flags, update_n_flag, update_z_flag_eq, apply_page_penalty, fetch_operand_extra_cycles, fetch_operand_page_penalty, fetch_operand_opcode, fetch_operand_operand_address]

theorem instr_ldx_extra (s : Cpu) :
    (instr_ldx s).extra_cycles = s.extra_cycles + s.page_penalty := by
  simp [instr_ldx, update_nz_flags, update_n_flag, update_z_flag_eq, apply_page_penalty, fetch_operand_extra_cycles, fetch_operand_page_penalty, fetch_operand_opcode, fetch_operand_operand_address]

theorem instr_ldy_extra (s : Cpu) :
    (instr_ldy s).extra_cycles = s.extra_cycles + s.page_penalty := by
  simp [instr_ldy, update_nz_flags, update_n_flag, update_z_flag_eq, apply_page_penalty, fetch_operand_extra_cycles, fetch_operand_page_penalty, fetch_operand_opcode, fetch_operand_operand_address]

theorem instr_lax_extra (s : Cpu) :
    (instr_lax s).extra_cycles = s.extra_cycles + s.page_penalty := by
  simp [instr_lax, update_nz_flags, update_n_flag, update_z_flag_eq, apply_page_penalty, fetch_operand_extra_cycles, fetch_operand_page_penalty, fetch_operand_opcode, fetch_operand_operand_address]

theorem instr_cmp_extra (s : Cpu) :
    (instr_cmp s).extra_cycles = s.extra_cycles + s.page_penalty := by
  simp [instr_cmp, update_nz_flags, update_n_flag, update_z_flag_eq, do_comparison_eq, apply_page_penalty, fetch_operand_extra_cycles, fetch_operand_page_penalty, fetch_operand_opcode, fetch_operand_operand_address]

theorem instr_nop_extra (s : Cpu) :
    (instr_nop s).extra_cycles = s.extra_cycles + s.page_penalty := rfl

theorem instr_adc_page_penalty (s : Cpu) :
    (instr_adc s).page_penalty = s.page_penalty := by
  simp [instr_adc, update_nz_flags, update_n_flag, update_z_flag_eq, ite_c_flag_eq, ite_v_flag_eq, apply_page_penalty, fetch_operand_extra_cycles, fetch_operand_page_penalty, fetch_operand_opcode, fetch_operand_operand_address]

theorem instr_sbc_page_penalty (s : Cpu) :
    (instr_sbc s).page_penalty = s.page_penalty := by
  simp [instr_sbc, update_nz_flags, update_n_flag, update_z_flag_eq, ite_c_flag_eq_flip, ite_v_flag_eq, apply_page_penalty, fetch_operand_extra_cycles, fetch_operand_page_penalty, fetch_operand_opcode, fetch_operand_operand_address]

theorem instr_and_page_penalty (s : Cpu) :
    (instr_and s).page_penalty = s.page_penalty := by
  simp [instr_and, update_nz_flags, update_n_flag, update_z_flag_eq, apply_page_penalty, fetch_operand_extra_cycles, fetch_operand_page_penalty, fetch_operand_opcode, fetch_operand_operand_address]

theorem instr_ora_page_penalty (s : Cpu) :
    (instr_ora s).page_penalty = s.page_penalty := by
  simp [instr_ora, update_nz_flags, update_n_flag, update_z_flag_eq, apply_page_penalty, fetch_operand_extra_cycles, fetch_operand_page_penalty, fetch_operand_opcode, fetch_operand_operand_address]

theorem instr_eor_page_penalty (s : Cpu) :
    (instr_eor s).page_penalty = s.page_penalty := by
  simp [instr_eor, update_nz_flags, update_n_flag, update_z_flag_eq, apply_page_penalty, fetch_operand_extra_cycles, fetch_operand_page_penalty, fetch_operand_opcode, fetch_operand_operand_address]

theorem instr_asl_extra (s : Cpu) (haddr : s.operand_address ≠ 0x4014) :
    (instr_asl s).extra_cycles = s.extra_cycles := by
  cases h0 : (op_lookup s.opcode).addr_mode <;>
    simp [instr_asl, update_nz_flags, update_n_flag, update_z_flag_eq, ite_c_flag_eq,
      do_mem_write_eq, h0, haddr, fetch_operand_extra_cycles, fetch_operand_page_penalty, fetch_operand_opcode, fetch_operand_operand_address]

theorem instr_asl_page_penalty (s : Cpu) :
    (instr_asl s).page_penalty = s.page_penalty := by
  cases h0 : (op_lookup s.opcode).addr_mode <;>
    simp [instr_asl, update_nz_flags, update_n_flag, update_z_flag_eq, ite_c_flag_eq,
      do_mem_write_eq, h0, fetch_operand_extra_cycles, fetch_operand_page_penalty, fetch_operand_opcode, fetch_operand_operand_address]

theorem instr_lsr_extra (s : Cpu) (haddr : s.operand_address ≠ 0x4014) :
    (instr_lsr s).extra_cycles = s.extra_cycles := by
  cases h0 : (op_lookup s.opcode).addr_mode <;>
    simp [instr_lsr, update_nz_flags, update_n_flag, update_z_flag_eq, ite_c_flag_eq,
      do_mem_write_eq, h0, haddr, fetch_operand_extra_cycles, fetch_operand_page_penalty, fetch_operand_opcode, fetch_operand_operand_address]

theorem instr_lsr_page_penalty (s : Cpu) :
    (instr_lsr s).page_penalty = s.page_penalty := by
  cases h0 : (op_lookup s.opcode).addr_mode <;>
    simp [instr_lsr, update_nz_flags, update_n_flag, update_z_flag_eq, ite_c_flag_eq,
      do_mem_write_eq, h0, fetch_operand_extra_cycles, fetch_operand_page_penalty, fetch_operand_opcode, fetch_operand_operand_address]

theorem instr_rol_extra (s : Cpu) (haddr : s.operand_address ≠ 0x4014) :
    (instr_rol s).extra_cycles = s.extra_cycles := by
  cases h0 : (op_lookup s.opcode).addr_mode <;>
    simp [instr_rol, update_nz_flags, update_n_flag, update_z_flag_eq, ite_c_flag_eq,
      do_mem_write_eq, h0, haddr, fetch_operand_extra_cycles, fetch_operand_page_penalty, fetch_operand_opcode, fetch_operand_operand_address]

theorem instr_rol_page_penalty (s : Cpu) :
    (instr_rol s).page_penalty = s.page_penalty := by
  cases h0 : (op_lookup s.opcode).addr_mode <;>
    simp [instr_rol, update_nz_flags, update_n_flag, update_z_flag_eq, ite_c_flag_eq,
      do_mem_write_eq, h0, fetch_operand_extra_cycles, fetch_operand_page_penalty, fetch_operand_opcode, fetch_operand_operand_address]

theorem instr_ror_extra (s : Cpu) (haddr : s.operand_address ≠ 0x4014) :
    (instr_ror s).extra_cycles = s.extra_cycles := by
  cases h0 : (op_lookup s.opcode).addr_mode <;>
    simp [instr_ror, update_nz_flags, update_n_flag, update_z_flag_eq, ite_c_flag_eq,
      do_mem_write_eq, h0, haddr, fetch_operand_extra_cycles, fetch_operand_page_penalty, fetch_operand_opcode, fetch_operand_operand_address]

theorem instr_ror_page_penalty (s : Cpu) :
    (instr_ror s).page_penalty = s.page_penalty := by
  cases h0 : (op_lookup s.opcode).addr_mode <;>
    simp [instr_ror, update_nz_flags, update_n_flag, update_z_flag_eq, ite_c_flag_eq,
      do_mem_write_eq, h0, fetch_operand_extra_cycles, fetch_operand_page_penalty, fetch_operand_opcode, fetch_operand_operand_address]

theorem instr_inc_extra (s : Cpu) (haddr : s.operand_address ≠ 0x4014) :
    (instr_inc s).extra_cycles = s.extra_cycles := by
  simp [instr_inc, update_nz_flags, update_n_flag, update_z_flag_eq, do_mem_write_eq,
    do_mem_read, haddr]

theorem instr_inc_page_penalty (s : Cpu) :
    (instr_inc s).page_penalty = s.page_penalty := by
  simp [instr_inc, update_nz_flags, update_n_flag, update_z_flag_eq, do_mem_write_eq,
    do_mem_read]

theorem instr_dcp_extra (s : Cpu) (haddr : s.operand_address ≠ 0x4014) :
    (instr_dcp s).extra_cycles = s.extra_cycles := by
  simp [instr_dcp, update_nz_flags, update_n_flag, update_z_flag_eq, do_mem_write_eq,
    do_comparison_eq, do_mem_read, haddr]

theorem instr_slo_extra (s : Cpu) (haddr : s.operand_address ≠ 0x4014) :
    (instr_slo s).extra_cycles = s.extra_cycles := by
  have h1 : (instr_asl s).operand_address = s.operand_address := by
    cases h0 : (op_lookup s.opcode).addr_mode <;>
    simp [instr_asl, update_nz_flags, update_n_flag, update_z_flag_eq, ite_c_flag_eq,
      do_mem_write_eq, do_mem_read, h0, fetch_operand_extra_cycles, fetch_operand_page_penalty, fetch_operand_opcode, fetch_operand_operand_address]
  simp [instr_slo, instr_ora_extra, instr_ora_page_penalty,
    instr_asl_extra s haddr, instr_asl_page_penalty]

theorem instr_rla_extra (s : Cpu) (haddr : s.operand_address ≠ 0x4014) :
    (instr_rla s).extra_cycles = s.extra_cycles := by
  have h1 : (instr_rol s).operand_address = s.operand_address := by
    cases h0 : (op_lookup s.opcode).addr_mode <;>
    simp [instr_rol, update_nz_flags, update_n_flag, update_z_flag_eq, ite_c_flag_eq,
      do_mem_write_eq, do_mem_read, h0, fetch_operand_extra_cycles, fetch_operand_page_penalty, fetch_operand_opcode, fetch_operand_operand_address]
  simp [instr_rla, instr_and_extra, instr_and_page_penalty,
    instr_rol_extra s haddr, instr_rol_page_penalty]

theorem instr_sre_extra (s : Cpu) (haddr : s.operand_address ≠ 0x4014) :
    (instr_sre s).extra_cycles = s.extra_cycles := by
  have h1 : (instr_lsr s).operand_address = s.operand_address := by
    cases h0 : (op_lookup s.opcode).addr_mode <;>
    simp [instr_lsr, update_nz_flags, update_n_flag, update_z_flag_eq, ite_c_flag_eq,
      do_mem_write_eq, do_mem_read, h0, fetch_operand_extra_cycles, fetch_operand_page_penalty, fetch_operand_opcode, fetch_operand_operand_address]
  simp [instr_sre, instr_eor_extra, instr_eor_page_penalty,
    instr_lsr_extra s haddr, instr_lsr_page_penalty]

theorem instr_rra_extra (s : Cpu) (haddr : s.operand_address ≠ 0x4014) :
    (instr_rra s).extra_cycles = s.extra_cycles := by
  have h1 : (instr_ror s).operand_address = s.operand_address := by
    cases h0 : (op_lookup s.opcode).addr_mode <;>
    simp [instr_ror, update_nz_flags, update_n_flag, update_z_flag_eq, ite_c_flag_eq,
      do_mem_write_eq, do_mem_read, h0, fetch_operand_extra_cycles, fetch_operand_page_penalty, fetch_operand_opcode, fetch_operand_operand_address]
  simp [instr_rra, instr_adc_extra, instr_adc_page_penalty,
    instr_ror_extra s haddr, instr_ror_page_penalty]

theorem instr_isb_extra (s : Cpu) (haddr : s.operand_address ≠ 0x4014) :
    (instr_isb s).extra_cycles = s.extra_cycles := by
  have h1 : (instr_inc s).operand_address = s.operand_address := by
    
    simp [instr_inc, update_nz_flags, update_n_flag, update_z_flag_eq, ite_c_flag_eq,
      do_mem_write_eq, do_mem_read, fetch_operand_extra_cycles, fetch_operand_page_penalty, fetch_operand_opcode, fetch_operand_operand_address]
  simp [instr_isb, instr_sbc_extra, instr_sbc_page_penalty,
    instr_inc_extra s haddr, instr_inc_page_penalty]

theorem instr_asl_pp_indep (s : Cpu) (p : Nat) :
    (instr_asl { s with page_penalty := p }).extra_cycles
      = (instr_asl { s with page_penalty := 0 }).extra_cycles := by
  cases h0 : (op_lookup s.opcode).addr_mode <;>
    simp [instr_asl, fetch_operand_set_pp, update_nz_flags, update_n_flag, update_z_flag_eq,
      ite_c_flag_eq, do_mem_write_eq, h0, fetch_operand_extra_cycles, fetch_operand_page_penalty, fetch_operand_opcode, fetch_operand_operand_address]

theorem instr_lsr_pp_indep (s : Cpu) (p : Nat) :
    (instr_lsr { s with page_penalty := p }).extra_cycles
      = (instr_lsr { s with page_penalty := 0 }).extra_cycles := by
  cases h0 : (op_lookup s.opcode).addr_mode <;>
    simp [instr_lsr, fetch_operand_set_pp, update_nz_flags, update_n_flag, update_z_flag_eq,
      ite_c_flag_eq, do_mem_write_eq, h0, fetch_operand_extra_cycles, fetch_operand_page_penalty, fetch_operand_opcode, fetch_operand_operand_address]

theorem instr_rol_pp_indep (s : Cpu) (p : Nat) :
    (instr_rol { s with page_penalty := p }).extra_cycles
      = (instr_rol { s with page_penalty := 0 }).extra_cycles := by
  cases h0 : (op_lookup s.opcode).addr_mode <;>
    simp [instr_rol, fetch_operand_set_pp, update_nz_flags, update_n_flag, update_z_flag_eq,
      ite_c_flag_eq, do_mem_write_eq, h0, fetch_operand_extra_cycles, fetch_operand_page_penalty, fetch_operand_opcode, fetch_operand_operand_address]

theorem instr_ror_pp_indep (s : Cpu) (p : Nat) :
    (instr_ror { s with page_penalty := p }).extra_cycles
      = (instr_ror { s with page_penalty := 0 }).extra_cycles := by
  cases h0 : (op_lookup s.opcode).addr_mode <;>
    simp [instr_ror, fetch_operand_set_pp, update_nz_flags, update_n_flag, update_z_flag_eq,
      ite_c_flag_eq, do_mem_write_eq, h0, fetch_operand_extra_cycles, fetch_operand_page_penalty, fetch_operand_opcode, fetch_operand_operand_address]

theorem instr_bcc_pp_indep (s : Cpu) (p : Nat) :
    (instr_bcc { s with page_penalty := p }).extra_cycles
      = (instr_bcc { s with page_penalty := 0 }).extra_cycles := by
  simp only [instr_bcc, fetch_operand_set_pp, branch_if_clear_eq]
  split <;> simp_all [get_branch_destination]

theorem instr_bne_pp_indep (s : Cpu) (p : Nat) :
    (instr_bne { s with page_penalty := p }).extra_cycles
      = (instr_bne { s with page_penalty := 0 }).extra_cycles := by
  simp only [instr_bne, fetch_operand_set_pp, branch_if_clear_eq]
  split <;> simp_all [get_branch_destination]

theorem instr_bpl_pp_indep (s : Cpu) (p : Nat) :
    (instr_bpl { s with page_penalty := p }).extra_cycles
      = (instr_bpl { s with page_penalty := 0 }).extra_cycles := by
  simp only [instr_bpl, fetch_operand_set_pp, branch_if_clear_eq]
  split <;> simp_all [get_branch_destination]

theorem instr_bvc_pp_indep (s : Cpu) (p : Nat) :
    (instr_bvc { s with page_penalty := p }).extra_cycles
      = (instr_bvc { s with page_penalty := 0 }).extra_cycles := by
  simp only [instr_bvc, fetch_operand_set_pp, branch_if_clear_eq]
  split <;> simp_all [get_branch_destination]

theorem instr_bcs_pp_indep (s : Cpu) (p : Nat) :
    (instr_bcs { s with page_penalty := p }).extra_cycles
      = (instr_bcs { s with page_penalty := 0 }).extra_cycles := by
  simp only [instr_bcs, fetch_operand_set_pp, branch_if_set_eq]
  split <;> simp_all [get_branch_destination]

theorem instr_beq_pp_indep (s : Cpu) (p : Nat) :
    (instr_beq { s with page_penalty := p }).extra_cycles
      = (instr_beq { s with page_penalty := 0 }).extra_cycles := by
  simp only [instr_beq, fetch_operand_set_pp, branch_if_set_eq]
  split <;> simp_all [get_branch_destination]

theorem instr_bmi_pp_indep (s : Cpu) (p : Nat) :
    (instr_bmi { s with page_penalty := p }).extra_cycles
      = (instr_bmi { s with page_penalty := 0 }).extra_cycles := by
  simp only [instr_bmi, fetch_operand_set_pp, branch_if_set_eq]
  split <;> simp_all [get_branch_destination]

theorem instr_bvs_pp_indep (s : Cpu) (p : Nat) :
    (instr_bvs { s with page_penalty := p }).extra_cycles
      = (instr_bvs { s with page_penalty := 0 }).extra_cycles := by
  simp only [instr_bvs, fetch_operand_set_pp, branch_if_set_eq]
  split <;> simp_all [get_branch_destination]

theorem instr_bit_pp_indep (s : Cpu) (p : Nat) :
    (instr_bit { s with page_penalty := p }).extra_cycles
      = (instr_bit { s with page_penalty := 0 }).extra_cycles := by
  simp [instr_bit, fetch_operand_set_pp, update_z_flag_eq]

theorem instr_cpx_pp_indep (s : Cpu) (p : Nat) :
    (instr_cpx { s with page_penalty := p }).extra_cycles
      = (instr_cpx { s with page_penalty := 0 }).extra_cycles := by
  simp [instr_cpx, fetch_operand_set_pp, do_comparison_eq]

theorem instr_cpy_pp_indep (s : Cpu) (p : Nat) :
    (instr_cpy { s with page_penalty := p }).extra_cycles
      = (instr_cpy { s with page_penalty := 0 }).extra_cycles := by
  simp [instr_cpy, fetch_operand_set_pp, do_comparison_eq]

theorem instr_brk_pp_indep (s : Cpu) (p : Nat) :
    (instr_brk { s with page_penalty := p }).extra_cycles
      = (instr_brk { s with page_penalty := 0 }).extra_cycles := by
  simp [instr_brk, stack_push_word, stack_push, stack_pull_word, stack_pull, set_p_from_stack, do_mem_write_eq, do_mem_read, do_mem_read_word]

theorem instr_jsr_pp_indep (s : Cpu) (p : Nat) :
    (instr_jsr { s with page_penalty := p }).extra_cycles
      = (instr_jsr { s with page_penalty := 0 }).extra_cycles := by
  simp [instr_jsr, stack_push_word, stack_push, stack_pull_word, stack_pull, set_p_from_stack, do_mem_write_eq, do_mem_read, do_mem_read_word]

theorem instr_rti_pp_indep (s : Cpu) (p : Nat) :
    (instr_rti { s with page_penalty := p }).extra_cycles
      = (instr_rti { s with page_penalty := 0 }).extra_cycles := by
  simp [instr_rti, stack_push_word, stack_push, stack_pull_word, stack_pull, set_p_from_stack, do_mem_write_eq, do_mem_read, do_mem_read_word]

theorem instr_rts_pp_indep (s : Cpu) (p : Nat) :
    (instr_rts { s with page_penalty := p }).extra_cycles
      = (instr_rts { s with page_penalty := 0 }).extra_cycles := by
  simp [instr_rts, stack_push_word, stack_push, stack_pull_word, stack_pull, set_p_from_stack, do_mem_write_eq, do_mem_read, do_mem_read_word]

theorem instr_pha_pp_indep (s : Cpu) (p : Nat) :
    (instr_pha { s with page_penalty := p }).extra_cycles
      = (instr_pha { s with page_penalty := 0 }).extra_cycles := by
  simp [instr_pha, stack_push_word, stack_push, stack_pull_word, stack_pull, set_p_from_stack, do_mem_write_eq, do_mem_read, do_mem_read_word]

theorem instr_php_pp_indep (s : Cpu) (p : Nat) :
    (instr_php { s with page_penalty := p }).extra_cycles
      = (instr_php { s with page_penalty := 0 }).extra_cycles := by
  simp [instr_php, stack_push_word, stack_push, stack_pull_word, stack_pull, set_p_from_stack, do_mem_write_eq, do_mem_read, do_mem_read_word]

theorem instr_pla_pp_indep (s : Cpu) (p : Nat) :
    (instr_pla { s with page_penalty := p }).extra_cycles
      = (instr_pla { s with page_penalty := 0 }).extra_cycles := by
  simp [instr_pla, stack_push_word, stack_push, stack_pull_word, stack_pull, set_p_from_stack, do_mem_write_eq, do_mem_read, do_mem_read_word, update_nz_flags, update_n_flag, update_z_flag_eq]

theorem instr_plp_pp_indep (s : Cpu) (p : Nat) :
    (instr_plp { s with page_penalty := p }).extra_cycles
      = (instr_plp { s with page_penalty := 0 }).extra_cycles := by
  simp [instr_plp, stack_push_word, stack_push, stack_pull_word, stack_pull, set_p_from_stack, do_mem_write_eq, do_mem_read, do_mem_read_word]

theorem instr_clc_pp_indep (s : Cpu) (p : Nat) :
    (instr_clc { s with page_penalty := p }).extra_cycles
      = (instr_clc { s with page_penalty := 0 }).extra_cycles := rfl

theorem instr_cld_pp_indep (s : Cpu) (p : Nat) :
    (instr_cld { s with page_penalty := p }).extra_cycles
      = (instr_cld { s with page_penalty := 0 }).extra_cycles := rfl

theorem instr_cli_pp_indep (s : Cpu) (p : Nat) :
    (instr_cli { s with page_penalty := p }).extra_cycles
      = (instr_cli { s with page_penalty := 0 }).extra_cycles := rfl

theorem instr_clv_pp_indep (s : Cpu) (p : Nat) :
    (instr_clv { s with page_penalty := p }).extra_cycles
      = (instr_clv { s with page_penalty := 0 }).extra_cycles := rfl

theorem instr_sec_pp_indep (s : Cpu) (p : Nat) :
    (instr_sec { s with page_penalty := p }).extra_cycles
      = (instr_sec { s with page_penalty := 0 }).extra_cycles := rfl

theorem instr_sed_pp_indep (s : Cpu) (p : Nat) :
    (instr_sed { s with page_penalty := p }).extra_cycles
      = (instr_sed { s with page_penalty := 0 }).extra_cycles := rfl

theorem instr_sei_pp_indep (s : Cpu) (p : Nat) :
    (instr_sei { s with page_penalty := p }).extra_cycles
      = (instr_sei { s with page_penalty := 0 }).extra_cycles := rfl

theorem instr_txs_pp_indep (s : Cpu) (p : Nat) :
    (instr_txs { s with page_penalty := p }).extra_cycles
      = (instr_txs { s with page_penalty := 0 }).extra_cycles := rfl

theorem instr_jmp_pp_indep (s : Cpu) (p : Nat) :
    (instr_jmp { s with page_penalty := p }).extra_cycles
      = (instr_jmp { s with page_penalty := 0 }).extra_cycles := rfl

theorem instr_dex_pp_indep (s : Cpu) (p : Nat) :
    (instr_dex { s with page_penalty := p }).extra_cycles
      = (instr_dex { s with page_penalty := 0 }).extra_cycles := by
  simp [instr_dex, update_nz_flags, update_n_flag, update_z_flag_eq]

theorem instr_dey_pp_indep (s : Cpu) (p : Nat) :
    (instr_dey { s with page_penalty := p }).extra_cycles
      = (instr_dey { s with page_penalty := 0 }).extra_cycles := by
  simp [instr_dey, update_nz_flags, update_n_flag, update_z_flag_eq]

theorem instr_inx_pp_indep (s : Cpu) (p : Nat) :
    (instr_inx { s with page_penalty := p }).extra_cycles
      = (instr_inx { s with page_penalty := 0 }).extra_cycles := by
  simp [instr_inx, update_nz_flags, update_n_flag, update_z_flag_eq]

theorem instr_iny_pp_indep (s : Cpu) (p : Nat) :
    (instr_iny { s with page_penalty := p }).extra_cycles
      = (instr_iny { s with page_penalty := 0 }).extra_cycles := by
  simp [instr_iny, update_nz_flags, update_n_flag, update_z_flag_eq]

theorem instr_tax_pp_indep (s : Cpu) (p : Nat) :
    (instr_tax { s with page_penalty := p }).extra_cycles
      = (instr_tax { s with page_penalty := 0 }).extra_cycles := by
  simp [instr_tax, update_nz_flags, update_n_flag, update_z_flag_eq]

theorem instr_tay_pp_indep (s : Cpu) (p : Nat) :
    (instr_tay { s with page_penalty := p }).extra_cycles
      = (instr_tay { s with page_penalty := 0 }).extra_cycles := by
  simp [instr_tay, update_nz_flags, update_n_flag, update_z_flag_eq]

theorem instr_tsx_pp_indep (s : Cpu) (p : Nat) :
    (instr_tsx { s with page_penalty := p }).extra_cycles
      = (instr_tsx { s with page_penalty := 0 }).extra_cycles := by
  simp [instr_tsx, update_nz_flags, update_n_flag, update_z_flag_eq]

theorem instr_txa_pp_indep (s : Cpu) (p : Nat) :
    (instr_txa { s with page_penalty := p }).extra_cycles
      = (instr_txa { s with page_penalty := 0 }).extra_cycles := by
  simp [instr_txa, update_nz_flags, update_n_flag, update_z_flag_eq]

theorem instr_tya_pp_indep (s : Cpu) (p : Nat) :
    (instr_tya { s with page_penalty := p }).extra_cycles
      = (instr_tya { s with page_penalty := 0 }).extra_cycles := by
  simp [instr_tya, update_nz_flags, update_n_flag, update_z_flag_eq]

theorem instr_sta_pp_indep (s : Cpu) (p : Nat) :
    (instr_sta { s with page_penalty := p }).extra_cycles
      = (instr_sta { s with page_penalty := 0 }).extra_cycles := by
  simp [instr_sta, do_mem_write_eq]

theorem instr_stx_pp_indep (s : Cpu) (p : Nat) :
    (instr_stx { s with page_penalty := p }).extra_cycles
      = (instr_stx { s with page_penalty := 0 }).extra_cycles := by
  simp [instr_stx, do_mem_write_eq]

theorem instr_sty_pp_indep (s : Cpu) (p : Nat) :
    (instr_sty { s with page_penalty := p }).extra_cycles
      = (instr_sty { s with page_penalty := 0 }).extra_cycles := by
  simp [instr_sty, do_mem_write_eq]

theorem instr_sax_pp_indep (s : Cpu) (p : Nat) :
    (instr_sax { s with page_penalty := p }).extra_cycles
      = (instr_sax { s with page_penalty := 0 }).extra_cycles := by
  simp [instr_sax, do_mem_write_eq]

theorem instr_inc_pp_indep (s : Cpu) (p : Nat) :
    (instr_inc { s with page_penalty := p }).extra_cycles
      = (instr_inc { s with page_penalty := 0 }).extra_cycles := by
  simp [instr_inc, update_nz_flags, update_n_flag, update_z_flag_eq, do_mem_write_eq, do_mem_read]

theorem instr_dec_pp_indep (s : Cpu) (p : Nat) :
    (instr_dec { s with page_penalty := p }).extra_cycles
      = (instr_dec { s with page_penalty := 0 }).extra_cycles := by
  simp [instr_dec, update_nz_flags, update_n_flag, update_z_flag_eq, do_mem_write_eq, do_mem_read]

theorem set_operand_address_page_penalty_zero (m : AddrMode) (s : Cpu)
    (hm : penalty_mode m = false) :
    (set_operand_address m { s with page_penalty := 0 }).page_penalty = 0 := by
  cases m <;> simp [penalty_mode] at hm ⊢ <;>
    simp [set_operand_address, addr_mode_imm, addr_mode_abs, addr_mode_zp, addr_mode_ind,
      addr_mode_zpx, addr_mode_zpy, addr_mode_izx, addr_mode_rel, addr_mode_acc,
      read_byte, read_word, do_mem_read, do_mem_read_word, apply_ite]

theorem set_operand_address_extra_cycles (m : AddrMode) (s : Cpu) :
    (set_operand_address m s).extra_cycles = s.extra_cycles := by
  cases m <;>
    simp [set_operand_address, addr_mode_imm, addr_mode_abs, addr_mode_zp, addr_mode_ind,
      addr_mode_abx, addr_mode_aby, addr_mode_izy,
      addr_mode_zpx, addr_mode_zpy, addr_mode_izx, addr_mode_rel, addr_mode_acc,
      read_byte, read_word, do_mem_read, do_mem_read_word, apply_ite]

theorem load_arith_penalty_applied (n : OpName) (s : Cpu)
    (hn : load_arith_class n = true) :
    (run_op n s).extra_cycles = s.extra_cycles + s.page_penalty := by
  cases n <;> simp [load_arith_class] at hn <;>
    first
      | exact instr_adc_extra s
      | exact instr_sbc_extra s
      | exact instr_and_extra s
      | exact instr_ora_extra s
      | exact instr_eor_extra s
      | exact instr_cmp_extra s
      | exact instr_lda_extra s
      | exact instr_ldx_extra s
      | exact instr_ldy_extra s
      | exact instr_lax_extra s
      | exact instr_nop_extra s

theorem combined_rmw_no_penalty (n : OpName) (s : Cpu)
    (hn : combined_rmw_class n = true) (haddr : s.operand_address ≠ 0x4014) :
    (run_op n s).extra_cycles = s.extra_cycles := by
  cases n
  case slo => exact instr_slo_extra s haddr
  case rla => exact instr_rla_extra s haddr
  case sre => exact instr_sre_extra s haddr
  case rra => exact instr_rra_extra s haddr
  case isb => exact instr_isb_extra s haddr
  case dcp => exact instr_dcp_extra s haddr
  all_goals exact absurd hn (by decide)

theorem other_ops_penalty_independent (n : OpName) (s : Cpu) (p : Nat)
    (h1 : load_arith_class n = false) (h2 : combined_rmw_class n = false) :
    (run_op n { s with page_penalty := p }).extra_cycles
      = (run_op n { s with page_penalty := 0 }).extra_cycles := by
  cases n
  case asl => exact instr_asl_pp_indep s p
  case lsr => exact instr_lsr_pp_indep s p
  case rol => exact instr_rol_pp_indep s p
  case ror => exact instr_ror_pp_indep s p
  case bcc => exact instr_bcc_pp_indep s p
  case bcs => exact instr_bcs_pp_indep s p
  case beq => exact instr_beq_pp_indep s p
  case bmi => exact instr_bmi_pp_indep s p
  case bne => exact instr_bne_pp_indep s p
  case bpl => exact instr_bpl_pp_indep s p
  case bvc => exact instr_bvc_pp_indep s p
  case bvs => exact instr_bvs_pp_indep s p
  case bit => exact instr_bit_pp_indep s p
  case cpx => exact instr_cpx_pp_indep s p
  case cpy => exact instr_cpy_pp_indep s p
  case brk => exact instr_brk_pp_indep s p
  case jsr => exact instr_jsr_pp_indep s p
  case rti => exact instr_rti_pp_indep s p
  case rts => exact instr_rts_pp_indep s p
  case pha => exact instr_pha_pp_indep s p
  case php => exact instr_php_pp_indep s p
  case pla => exact instr_pla_pp_indep s p
  case plp => exact instr_plp_pp_indep s p
  case dex => exact instr_dex_pp_indep s p
  case dey => exact instr_dey_pp_indep s p
  case inx => exact instr_inx_pp_indep s p
  case iny => exact instr_iny_pp_indep s p
  case tax => exact instr_tax_pp_indep s p
  case tay => exact instr_tay_pp_indep s p
  case tsx => exact instr_tsx_pp_indep s p
  case txa => exact instr_txa_pp_indep s p
  case tya => exact instr_tya_pp_indep s p
  case sta => exact instr_sta_pp_indep s p
  case stx => exact instr_stx_pp_indep s p
  case sty => exact instr_sty_pp_indep s p
  case sax => exact instr_sax_pp_indep s p
  case inc => exact instr_inc_pp_indep s p
  case dec => exact instr_dec_pp_indep s p
  case clc => rfl
  case cld => rfl
  case cli => rfl
  case clv => rfl
  case sec => rfl
  case sed => rfl
  case sei => rfl
  case txs => rfl
  case jmp => rfl
  case oops => rfl
  all_goals first | exact absurd h1 (by decide) | exact absurd h2 (by decide)

theorem execute_as_decode (s : Cpu) :
    execute s = (if (op_lookup (s.mem s.reg.PC)).func = OpName.oops then none
      else some (run_op (op_lookup (s.mem s.reg.PC)).func (decode_state s),
        (op_lookup (s.mem s.reg.PC)).cycles
          + (run_op (op_lookup (s.mem s.reg.PC)).func (decode_state s)).extra_cycles)) := by
  rfl

theorem decode_state_extra_cycles (s : Cpu) :
    (decode_state s).extra_cycles = 0 := by
  simp [decode_state, read_byte, set_operand_address_extra_cycles]

theorem combined_rmw_base_cycles (s : Cpu)
    (hc : combined_rmw_class (op_lookup (s.mem s.reg.PC)).func = true)
    (haddr : (decode_state s).operand_address ≠ 0x4014) :
    execute s = some (run_op (op_lookup (s.mem s.reg.PC)).func (decode_state s),
      (op_lookup (s.mem s.reg.PC)).cycles) := by
  have hne : (op_lookup (s.mem s.reg.PC)).func ≠ OpName.oops := by
    intro he
    rw [he] at hc
    simp [combined_rmw_class] at hc
  rw [execute_as_decode, if_neg hne,
    combined_rmw_no_penalty _ _ hc haddr, decode_state_extra_cycles, Nat.add_zero]


end Cpu

open Cpu in
/--
C6.  The page-penalty discipline: (1) an addressing mode other than
ABX / ABY / IZY leaves the page-penalty flag at 0; (2) the executors
ADC, SBC, AND, ORA, EOR, CMP, LDA, LDX, LDY, LAX and NOP add exactly
the pending page penalty to the extra-cycles accumulator; (3) the
combined undocumented executors SLO, RLA, SRE, RRA, ISB and DCP leave
the accumulator unchanged (the helper's penalty is subtracted back
off), provided the target is not the $4014 DMA port; (4) every other
executor's extra-cycle count is independent of the page-penalty flag;
(5) consequently a full `execute` of any opcode dispatching to a
combined undocumented executor returns exactly its tabulated base
cycle count.
-/
theorem C6_page_penalty_discipline :
    (∀ (m : AddrMode) (s : Cpu), penalty_mode m = false →
      (set_operand_address m { s with page_penalty := 0 }).page_penalty = 0) ∧
    (∀ (n : OpName) (s : Cpu), load_arith_class n = true →
      (run_op n s).extra_cycles = s.extra_cycles + s.page_penalty) ∧
    (∀ (n : OpName) (s : Cpu), combined_rmw_class n = true →
      s.operand_address ≠ 0x4014 →
      (run_op n s).extra_cycles = s.extra_cycles) ∧
    (∀ (n : OpName) (s : Cpu) (p : Nat),
      load_arith_class n = false → combined_rmw_class n = false →
      (run_op n { s with page_penalty := p }).extra_cycles
        = (run_op n { s with page_penalty := 0 }).extra_cycles) ∧
    (∀ s : Cpu, combined_rmw_class (op_lookup (s.mem s.reg.PC)).func = true →
      (decode_state s).operand_address ≠ 0x4014 →
      execute s = some (run_op (op_lookup (s.mem s.reg.PC)).func (decode_state s),
        (op_lookup (s.mem s.reg.PC)).cycles)) :=
  ⟨fun m s hm => set_operand_address_page_penalty_zero m s hm,
   fun n s hn => load_arith_penalty_applied n s hn,
   fun n s hn haddr => combined_rmw_no_penalty n s hn haddr,
   fun n s p h1 h2 => other_ops_penalty_independent n s p h1 h2,
   fun s hc haddr => combined_rmw_base_cycles s hc haddr⟩

open Cpu in
theorem C6_page_penalty_discipline_witness :
    (penalty_mode AddrMode.ZP = false ∧
      (set_operand_address AddrMode.ZP { slo_cpu with page_penalty := 0 }).page_penalty = 0) ∧
    (load_arith_class OpName.lda = true ∧
      (run_op OpName.lda adc_bug_cpu).extra_cycles
        = adc_bug_cpu.extra_cycles + adc_bug_cpu.page_penalty) ∧
    (combined_rmw_class OpName.slo = true ∧ brk_cpu.operand_address ≠ 0x4014 ∧
      (run_op OpName.slo brk_cpu).extra_cycles = brk_cpu.extra_cycles) ∧
    (load_arith_class OpName.sta = false ∧ combined_rmw_class OpName.sta = false ∧
      (run_op OpName.sta { brk_cpu with page_penalty := 1 }).extra_cycles
        = (run_op OpName.sta { brk_cpu with page_penalty := 0 }).extra_cycles) ∧
    (combined_rmw_class (op_lookup (slo_cpu.mem slo_cpu.reg.PC)).func = true ∧
      (decode_state slo_cpu).operand_address ≠ 0x4014 ∧
      execute slo_cpu
        = some (run_op (op_lookup (slo_cpu.mem slo_cpu.reg.PC)).func (decode_state slo_cpu),
            (op_lookup (slo_cpu.mem slo_cpu.reg.PC)).cycles)) :=
  ⟨⟨by decide, C6_page_penalty_discipline.1 AddrMode.ZP slo_cpu (by decide)⟩,
   ⟨by decide, C6_page_penalty_discipline.2.1 OpName.lda adc_bug_cpu (by decide)⟩,
   ⟨by decide, by decide,
     C6_page_penalty_discipline.2.2.1 OpName.slo brk_cpu (by decide) (by decide)⟩,
   ⟨by decide, by decide,
     C6_page_penalty_discipline.2.2.2.1 OpName.sta brk_cpu 1 (by decide) (by decide)⟩,
   ⟨by decide, by decide,
     C6_page_penalty_discipline.2.2.2.2 slo_cpu (by decide) (by decide)⟩⟩


end Retrobrite
